import Mathlib

/-!
# Standard dialog functions of FLTK (`src/fl_ask.cxx`)

A shallow embedding of the dialog presenter of `fl_ask.cxx`: the file-scope
statics become the fields of `State`, the widget tree built by `makeform`
becomes `Form`, and every function of the file becomes a function on these.

Conventions.
* C `int` is `Int`; the pixel counts handled here stay far below `2^31`
  (`layout_fits_int32` below bounds every intermediate value of `resizeform`).
* A `const char *` that may be null is an `Option String`.
* Toolkit calls whose code is outside the file (`Fl_Widget::resize`,
  `Fl_Window::show`, `fl_measure`, ...) are plain field updates or oracles
  collected in `Env`. Resizing the window makes the toolkit lay out the
  children of the window again: `Env.group_resize` stands for that, and the
  properties of `resizeform` are proved for every such function.
* The blocking loop `while (message_form->shown()) Fl::wait();` consumes a
  list of events; when the list runs out while the window is still shown the
  call never returns (`none`).
-/

namespace FlAsk

/-! ## Toolkit data -/

/-- Geometry, label and visibility of an `Fl_Widget`. -/
structure Widget where
  x : Int
  y : Int
  w : Int
  h : Int
  label : Option String
  labelfont : Int
  labelsize : Int
  visible : Bool
deriving DecidableEq, Repr

/-- Window placement requested from the toolkit: `Fl_Window::position`,
`Fl_Window::hotspot` or `Fl_Window::free_position`. -/
inductive Placement where
  | position (x y : Int)
  | hotspot
  | free
deriving DecidableEq, Repr

/-- Widget that received the last `take_focus()` call. -/
inductive Focus where
  | nobody
  | button1
  | input
deriving DecidableEq, Repr

/-- A rectangle `(x, y, w, h)`. -/
abbrev Rect := Int × Int × Int × Int

/-- Rectangles of the children of the dialog window: the six widgets that
`fl_ask.cxx` names and the invisible box that `makeform` makes the resizable
of the window (line 115). -/
structure Rects where
  message : Rect
  icon : Rect
  input : Rect
  button0 : Rect
  button1 : Rect
  button2 : Rect
  resizable : Rect
deriving DecidableEq, Repr

/-- Size of the window together with the rectangles of its children. -/
structure Placing where
  w : Int
  h : Int
  rects : Rects
deriving DecidableEq, Repr

/-- Constants and oracles of the toolkit that `fl_ask.cxx` uses but does not
define. `fl_measure font size label` is `fl_font(font, size)` followed by
`fl_measure(label, w, h)` with `w = h = 0` on entry (no wrapping), and returns
the measured `(w, h)`; `vsnprintf size fmt ap` is the text left in a buffer of
`size` bytes. `group_resize cur sizes W H` is what resizing the window to
`W x H` does to its children: from the size of the window and the rectangles
of the children before the call (`cur`) and the record of original sizes that
the group of the window keeps (`sizes`, null after `init_sizes()`) it gives
the new rectangles of the children and the new record. -/
structure Env where
  fl_measure : Int → Int → Option String → Int × Int
  group_resize : Placing → Option Placing → Int → Int → Rects × Option Placing
  vsnprintf : Nat → String → List (Option String) → String
  label_shortcut : String → Int
  FL_NORMAL_SIZE : Int
  FL_HELVETICA : Int
  FL_TIMES_BOLD : Int
  FL_Escape : Int
  FL_NORMAL_INPUT : Int
  FL_SECRET_INPUT : Int

/-- The dialog window `message_form` with its children `message`, `icon`,
`input` and `button[0..2]`. The field `message_form` holds the geometry and
title of the window itself, `shown` is `Fl_Window::shown()`. `resizable` is
the rectangle of the invisible resizable box and `sizes` the record of
original sizes that the group of the window keeps for resizing. -/
@[ext]
structure Form where
  message_form : Widget
  shown : Bool
  size_range : Option (Int × Int × Int × Int)
  placement : Placement
  message : Widget
  icon : Widget
  input : Widget
  input_value : String
  input_type : Int
  button0 : Widget
  button1 : Widget
  button2 : Widget
  shortcut0 : Int
  focus : Focus
  resizable : Rect
  sizes : Option Placing
deriving DecidableEq, Repr

/-- Read `button[i]`. -/
def Form.button (f : Form) : Nat → Widget
  | 0 => f.button0
  | 1 => f.button1
  | _ => f.button2

/-- Write `button[i]`. -/
def Form.setButton (f : Form) (i : Nat) (b : Widget) : Form :=
  match i with
  | 0 => { f with button0 := b }
  | 1 => { f with button1 := b }
  | _ => { f with button2 := b }

/-- Modelled from the spec: `Fl_Widget::resize(X, Y, W, H)` of the toolkit,
which stores the new rectangle of the widget. -/
def Widget.resize (b : Widget) (X Y W H : Int) : Widget :=
  { b with x := X, y := Y, w := W, h := H }

/-- Modelled from the spec: `Fl_Widget::position(X, Y)` of the toolkit. -/
def Widget.position (b : Widget) (X Y : Int) : Widget :=
  b.resize X Y b.w b.h

/-- Modelled from the spec: `Fl_Widget::size(W, H)` of the toolkit. -/
def Widget.size (b : Widget) (W H : Int) : Widget :=
  b.resize b.x b.y W H

/-- Rectangle of a widget. -/
def Widget.rect (b : Widget) : Rect :=
  (b.x, b.y, b.w, b.h)

/-- The widget moved and sized to the rectangle `r`. -/
def Widget.setRect (b : Widget) (r : Rect) : Widget :=
  b.resize r.1 r.2.1 r.2.2.1 r.2.2.2

/-- Size of the window and rectangles of its children as they are. -/
def Form.placing (f : Form) : Placing :=
  { w := f.message_form.w, h := f.message_form.h,
    rects := { message := f.message.rect, icon := f.icon.rect, input := f.input.rect,
               button0 := f.button0.rect, button1 := f.button1.rect,
               button2 := f.button2.rect, resizable := f.resizable } }

/-- Modelled from the spec: `Fl_Window::size(W, H)` of the toolkit, called
on `message_form`. The window gets the size `W x H`, and the toolkit lays out
the children of the window again, hidden ones included: their new rectangles
and the new record of original sizes are those of `env.group_resize`. Labels,
fonts and visibility stay. -/
def Form.size (env : Env) (f : Form) (W H : Int) : Form :=
  let r := env.group_resize f.placing f.sizes W H
  { f with
    message_form := f.message_form.size W H,
    message := f.message.setRect r.1.message,
    icon := f.icon.setRect r.1.icon,
    input := f.input.setRect r.1.input,
    button0 := f.button0.setRect r.1.button0,
    button1 := f.button1.setRect r.1.button1,
    button2 := f.button2.setRect r.1.button2,
    resizable := r.1.resizable,
    sizes := r.2 }

/-- Modelled from the spec: `Fl_Group::init_sizes()` of the toolkit, called
on `message_form`: the record of original sizes is dropped, so that the next
resize starts from the arrangement of that moment. -/
def Form.init_sizes (f : Form) : Form :=
  { f with sizes := none }

/-- A three element `int` array such as `button_w[3]`. -/
structure Arr3 where
  a0 : Int
  a1 : Int
  a2 : Int
deriving DecidableEq, Repr

/-- Read `a[i]`. -/
def Arr3.get (a : Arr3) : Nat → Int
  | 0 => a.a0
  | 1 => a.a1
  | _ => a.a2

/-- Write `a[i] = v`. -/
def Arr3.set (a : Arr3) (i : Nat) (v : Int) : Arr3 :=
  match i with
  | 0 => { a with a0 := v }
  | 1 => { a with a1 := v }
  | _ => { a with a2 := v }

/-! ## `resizeform` -/

/-- Final values of the local variables of `resizeform`. -/
structure Layout where
  message_w : Int
  message_h : Int
  text_height : Int
  button_w : Arr3
  button_h : Arr3
  max_w : Int
  max_h : Int
  w : Int
  h : Int
deriving DecidableEq, Repr

/-- Body of the first loop of `resizeform`, for slot `i`:
measures the label of a visible button and pads it. -/
def measureButton (env : Env) (f : Form) (acc : Arr3 × Arr3 × Int) (i : Nat) :
    Arr3 × Arr3 × Int :=
  let button_w := acc.1
  let button_h := acc.2.1
  let max_h := acc.2.2
  if (f.button i).visible then
    let m := env.fl_measure (f.button 0).labelfont (f.button 0).labelsize (f.button i).label
    let button_w := button_w.set i m.1
    let button_h := button_h.set i m.2
    let button_w := if i = 1 then button_w.set 1 (button_w.get 1 + 20) else button_w
    let button_w := button_w.set i (button_w.get i + 30)
    let button_h := button_h.set i (button_h.get i + 10)
    let max_h := if button_h.get i > max_h then button_h.get i else max_h
    (button_w, button_h, max_h)
  else
    (button_w, button_h, max_h)

/-- The computations of `resizeform` (lines 137-180): every local variable
with the value it has when the widgets are resized. -/
def layout (env : Env) (f : Form) : Layout :=
  let icon_size : Int := 50
  let m := env.fl_measure f.message.labelfont f.message.labelsize f.message.label
  let message_w := m.1
  let message_h := m.2
  let message_w := message_w + 10
  let message_h := message_h + 10
  let message_w := if message_w < 340 then 340 else message_w
  let message_h := if message_h < 30 then 30 else message_h
  let bs := [0, 1, 2].foldl (measureButton env f) (⟨0, 0, 0⟩, ⟨0, 0, 0⟩, 25)
  let button_w := bs.1
  let button_h := bs.2.1
  let max_h := bs.2.2
  let text_height := if f.input.visible then message_h + 25 else message_h
  let max_w := message_w + 10 + icon_size
  let w := button_w.get 0 + button_w.get 1 + button_w.get 2 - 10
  let max_w := if w > max_w then w else max_w
  let message_w := max_w - 10 - icon_size
  let w := max_w + 20
  let h := max_h + 30 + text_height
  { message_w := message_w, message_h := message_h, text_height := text_height,
    button_w := button_w, button_h := button_h, max_w := max_w, max_h := max_h,
    w := w, h := h }

/-- Body of the second loop of `resizeform`, for slot `i`: places a button
whose computed width is not zero to the left of the running `x`. -/
def placeButton (L : Layout) (acc : Int × Form) (i : Nat) : Int × Form :=
  let x := acc.1
  let f := acc.2
  if L.button_w.get i ≠ 0 then
    let x := x - L.button_w.get i
    (x, f.setButton i ((f.button i).resize x (L.h - 10 - L.max_h) (L.button_w.get i - 10) L.max_h))
  else
    (x, f)

/-- The function `resizeform()`: resizes the window and its widgets so that
they hold the message and the button labels. -/
def resizeform (env : Env) (f : Form) : Form :=
  let icon_size : Int := 50
  let f := f.size env 410 103
  let L := layout env f
  let f := f.size env L.w L.h
  let f := { f with size_range := some (L.w, L.h, L.w, L.h) }
  let f := { f with message := f.message.resize (20 + icon_size) 10 L.message_w L.message_h }
  let f := { f with icon := f.icon.resize 10 10 icon_size icon_size }
  let f := { f with icon := { f.icon with labelsize := icon_size - 10 } }
  let f := { f with input := f.input.resize (20 + icon_size) (10 + L.message_h) L.message_w 25 }
  let f := ([0, 1, 2].foldl (placeButton L) (L.w, f)).2
  f.init_sizes

/-! ## Presenter state -/

/-- The file-scope variables of `fl_ask.cxx`. `made` says that `message_form`
is not null, in which case `form` holds the window and its widgets. `pushed`
and `grab` stand for `Fl::pushed()` and `Fl::grab()`. `screen` lists the
dialogs handed to `Fl_Window::show()`, the latest first. -/
structure State where
  made : Bool
  form : Form
  ret_val : Int
  iconlabel : String
  message_title_default : Option String
  fl_message_font_ : Int
  fl_message_size_ : Int
  enableHotspot : Int
  form_x : Int
  form_y : Int
  form_position : Int
  avoidRecursion : Int
  fl_no : String
  fl_yes : String
  fl_ok : String
  fl_cancel : String
  fl_close : String
  pushed : Bool
  grab : Option Nat
  screen : List Form
deriving DecidableEq, Repr

/-- A freshly constructed widget with the toolkit defaults. -/
def newWidget (env : Env) (X Y W H : Int) : Widget :=
  { x := X, y := Y, w := W, h := H, label := none,
    labelfont := env.FL_HELVETICA, labelsize := env.FL_NORMAL_SIZE, visible := true }

/-- The widget tree that `makeform` builds on first use (lines 79-118): the
window of 410 x 103, the message box, the hidden input field, the icon and
the three buttons, created right to left 100 pixels apart, with Escape as the
shortcut of button 0, and the invisible resizable box. The modal flag of the
window plays no part in what follows and is left out. -/
def newForm (env : Env) : Form :=
  { message_form := { newWidget env 0 0 410 103 with visible := false },
    shown := false,
    size_range := none,
    placement := Placement.free,
    message := newWidget env 60 25 340 20,
    icon := { newWidget env 10 10 50 50 with labelfont := env.FL_TIMES_BOLD, labelsize := 34 },
    input := { newWidget env 60 37 340 23 with visible := false },
    input_value := "",
    input_type := env.FL_NORMAL_INPUT,
    button0 := newWidget env 310 70 90 23,
    button1 := newWidget env (310 - 100) 70 90 23,
    button2 := newWidget env (310 - 100 - 100) 70 90 23,
    shortcut0 := env.FL_Escape,
    focus := Focus.nobody,
    resizable := (60, 10, 110 - 60, 27),
    sizes := none }

/-- The function `makeform()`: returns the existing form, or builds it. -/
def makeform (env : Env) (s : State) : State :=
  if s.made then s else { s with made := true, form := newForm env }

/-- The state of the presenter when the program starts. -/
def State.init (env : Env) : State :=
  { made := false, form := newForm env, ret_val := 0, iconlabel := "?",
    message_title_default := none, fl_message_font_ := env.FL_HELVETICA,
    fl_message_size_ := -1, enableHotspot := 1, form_x := 0, form_y := 0,
    form_position := 0, avoidRecursion := 0, fl_no := "No", fl_yes := "Yes",
    fl_ok := "OK", fl_cancel := "Cancel", fl_close := "Close", pushed := false,
    grab := none, screen := [] }

/-- Modelled from the spec: `Fl_Window::hide()` of the toolkit. -/
def Form.hide (f : Form) : Form :=
  { f with shown := false, message_form := { f.message_form with visible := false } }

/-- Modelled from the spec: `Fl_Window::show()` of the toolkit. -/
def Form.show (f : Form) : Form :=
  { f with shown := true, message_form := { f.message_form with visible := true } }

/-- Modelled from the spec: `Fl_Window::position(X, Y)` of the toolkit, which
moves the window and makes the position binding. -/
def Form.position (f : Form) (X Y : Int) : Form :=
  { f with message_form := f.message_form.position X Y, placement := Placement.position X Y }

/-- The callback `button_cb`: stores the return value and closes the window. -/
def button_cb (s : State) (val : Int) : State :=
  let s := { s with ret_val := val }
  { s with form := s.form.hide }

/-! ## The wait loop -/

/-- What one call of `Fl::wait()` can deliver to the dialog. -/
inductive Event where
  /-- Button `b` is activated: the toolkit calls `button_cb(button[b], b)`. -/
  | push (b : Nat)
  /-- The window is closed by the window manager or by Escape without a
  shortcut button: the toolkit calls `button_cb(message_form, 0)`. -/
  | close
  /-- The window is hidden by other code, no callback of this file runs. -/
  | hide
  /-- The user replaces the text of the input field. -/
  | edit (text : String)
  /-- Anything that leaves the presenter alone. -/
  | other
deriving DecidableEq, Repr

/-- One call of `Fl::wait()`. Only a visible button can be activated and only
a visible input field can be edited. -/
def Fl_wait (s : State) : Event → State
  | Event.push b => if b < 3 ∧ (s.form.button b).visible then button_cb s b else s
  | Event.close => button_cb s 0
  | Event.hide => { s with form := s.form.hide }
  | Event.edit text =>
      if s.form.input.visible then { s with form := { s.form with input_value := text } } else s
  | Event.other => s

/-- The loop `while (message_form->shown()) Fl::wait();`. The result is
`none` when the events run out while the window is still shown. -/
def waitLoop (s : State) : List Event → Option State
  | [] => if s.form.shown then none else some s
  | e :: es => if s.form.shown then waitLoop (Fl_wait s e) es else some s

/-! ## `innards` -/

/-- The message text of `innards` (lines 214-220): the single argument when
the format is the literal `%s`, the text that `vsnprintf` writes into the
1024 byte buffer otherwise. A missing argument reads as a null pointer. -/
def messageText (env : Env) (fmt : String) (ap : List (Option String)) : Option String :=
  if fmt = "%s" then ap.head?.join else some (env.vsnprintf 1024 fmt ap)

/-- Placement of the window in `innards` (lines 241-251). -/
def placeForm (s : State) (f : Form) : State × Form :=
  if s.form_position ≠ 0 then
    let s := if s.form_position = 2 then
        { s with form_x := s.form_x - (f.message_form.w).tdiv 2,
                 form_y := s.form_y - (f.message_form.h).tdiv 2 }
      else s
    let f := f.position s.form_x s.form_y
    let s := { s with form_x := 0, form_y := 0, form_position := 0 }
    (s, f)
  else if s.enableHotspot ≠ 0 then
    (s, { f with placement := Placement.hotspot })
  else
    (s, { f with placement := Placement.free })

/-- Locals of `innards` that live across the wait loop. -/
structure Saved where
  prev_icon_label : Option String
  g : Option Nat
deriving DecidableEq, Repr

/-- Message label, font and size in `innards` (lines 213-226). -/
def setMessage (env : Env) (s : State) (f : Form) (fmt : String)
    (ap : List (Option String)) : Form :=
  let f := f.size env 410 103
  let f := { f with message := { f.message with label := messageText env fmt ap } }
  let f := { f with message := { f.message with labelfont := s.fl_message_font_ } }
  if s.fl_message_size_ = -1
    then { f with message := { f.message with labelsize := env.FL_NORMAL_SIZE } }
    else { f with message := { f.message with labelsize := s.fl_message_size_ } }

/-- Buttons shown or hidden per label in `innards` (lines 227-232). -/
def setButtons (f : Form) (b0 b1 b2 : Option String) : Form :=
  let f := match b0 with
    | some l => { f with button0 := { f.button0 with visible := true, label := some l },
                         button1 := f.button1.position 210 70 }
    | none => { f with button0 := { f.button0 with visible := false },
                       button1 := f.button1.position 310 70 }
  let f := match b1 with
    | some l => { f with button1 := { f.button1 with visible := true, label := some l } }
    | none => { f with button1 := { f.button1 with visible := false } }
  match b2 with
    | some l => { f with button2 := { f.button2 with visible := true, label := some l } }
    | none => { f with button2 := { f.button2 with visible := false } }

/-- Icon label in `innards` (line 234): the glyph `iconlabel` is used only
when the icon has no label of its own. -/
def setIcon (s : State) (f : Form) : Form :=
  if f.icon.label = none then { f with icon := { f.icon with label := some s.iconlabel } } else f

/-- Focus in `innards` (lines 238-239). -/
def setFocus (f : Form) : Form :=
  if f.button1.visible ∧ ¬ f.input.visible then { f with focus := Focus.button1 } else f

/-- Shortcut of button 0 in `innards` (lines 253-256). -/
def setShortcut (env : Env) (f : Form) (b0 : Option String) : Form :=
  match b0 with
  | some l => if env.label_shortcut l ≠ 0 then { f with shortcut0 := 0 }
              else { f with shortcut0 := env.FL_Escape }
  | none => { f with shortcut0 := env.FL_Escape }

/-- Default window title in `innards` (lines 259-260). -/
def setTitle (s : State) (f : Form) : Form :=
  if f.message_form.label = none ∧ s.message_title_default ≠ none
    then { f with message_form := { f.message_form with label := s.message_title_default } }
    else f

/-- Release of the grab and `message_form->show()` in `innards`
(lines 263-267). -/
def showForm (s : State) (f : Form) : State :=
  let s := if s.grab ≠ none then { s with grab := none } else s
  let f := f.show
  { s with form := f, screen := f :: s.screen }

/-- The function `innards` up to and including `message_form->show()`
(lines 208-267). -/
def innards_show (env : Env) (s : State) (fmt : String) (ap : List (Option String))
    (b0 b1 b2 : Option String) : State × Saved :=
  let s := { s with pushed := false }
  let s := { s with avoidRecursion := 1 }
  let s := makeform env s
  let f := setMessage env s s.form fmt ap
  let f := setButtons f b0 b1 b2
  let prev_icon_label := f.icon.label
  let f := setIcon s f
  let f := resizeform env f
  let f := setFocus f
  let p := placeForm s f
  let f := setShortcut env p.2 b0
  let f := setTitle p.1 f
  let g := p.1.grab
  (showForm p.1 f, { prev_icon_label := prev_icon_label, g := g })

/-- The function `innards` after the wait loop (lines 269-275). -/
def innards_done (s : State) (sv : Saved) : Int × State :=
  let s := if sv.g ≠ none then { s with grab := sv.g } else s
  let s := { s with form := { s.form with icon := { s.form.icon with label := sv.prev_icon_label } } }
  let s := { s with form := { s.form with message_form := { s.form.message_form with label := none } } }
  let s := { s with avoidRecursion := 0 }
  (s.ret_val, s)

/-- The function `innards`: sets the dialog up, shows it, waits until the
window is hidden and returns `ret_val`. -/
def innards (env : Env) (s : State) (fmt : String) (ap : List (Option String))
    (b0 b1 b2 : Option String) (evs : List Event) : Option (Int × State) :=
  let p := innards_show env s fmt ap b0 b1 b2
  match waitLoop p.1 evs with
  | none => none
  | some s => some (innards_done s p.2)

/-! ## The dialog functions -/

/-- The function `fl_message`. A `void` function: the result is the state
after the call, `none` when the call never returns. -/
def fl_message (env : Env) (s : State) (fmt : String) (ap : List (Option String))
    (evs : List Event) : Option State :=
  if s.avoidRecursion ≠ 0 then some s
  else
    let s := { s with iconlabel := "i" }
    match innards env s fmt ap none (some s.fl_close) none evs with
    | none => none
    | some r => some { r.2 with iconlabel := "?" }

/-- The function `fl_alert`. -/
def fl_alert (env : Env) (s : State) (fmt : String) (ap : List (Option String))
    (evs : List Event) : Option State :=
  if s.avoidRecursion ≠ 0 then some s
  else
    let s := { s with iconlabel := "!" }
    match innards env s fmt ap none (some s.fl_close) none evs with
    | none => none
    | some r => some { r.2 with iconlabel := "?" }

/-- The function `fl_ask`. -/
def fl_ask (env : Env) (s : State) (fmt : String) (ap : List (Option String))
    (evs : List Event) : Option (Int × State) :=
  if s.avoidRecursion ≠ 0 then some (0, s)
  else innards env s fmt ap (some s.fl_no) (some s.fl_yes) none evs

/-- The function `fl_choice`. -/
def fl_choice (env : Env) (s : State) (fmt : String) (b0 b1 b2 : Option String)
    (ap : List (Option String)) (evs : List Event) : Option (Int × State) :=
  if s.avoidRecursion ≠ 0 then some (0, s)
  else innards env s fmt ap b0 b1 b2 evs

/-- The function `fl_message_icon`: makes sure the form exists and hands out
the icon widget. -/
def fl_message_icon (env : Env) (s : State) : Widget × State :=
  let s := makeform env s
  (s.form.icon, s)

/-- A caller stores a label in the widget obtained from `fl_message_icon`. -/
def State.iconLabel (s : State) (l : Option String) : State :=
  { s with form := { s.form with icon := { s.form.icon with label := l } } }

/-- Modelled from the spec: `Fl_Input::value(const char*)` of the toolkit,
which stores a copy of the text, the empty text for a null pointer. -/
def Form.setValue (f : Form) (str : Option String) : Form :=
  { f with input_value := str.getD "" }

/-- The function `input_innards`. The result is null (`none`) when `innards`
returns 0 and the text of the input field otherwise. -/
def input_innards (env : Env) (s : State) (fmt : String) (ap : List (Option String))
    (defstr : Option String) (type : Int) (evs : List Event) :
    Option (Option String × State) :=
  let s := makeform env s
  let f := s.form
  let f := f.size env 410 103
  let f := { f with message := f.message.position 60 10 }
  let f := { f with input_type := type }
  let f := { f with input := { f.input with visible := true } }
  let f := f.setValue defstr
  let f := { f with focus := Focus.input }
  let s := { s with form := f }
  match innards env s fmt ap (some s.fl_cancel) (some s.fl_ok) none evs with
  | none => none
  | some r =>
    let s := r.2
    let f := s.form
    let f := { f with input := { f.input with visible := false } }
    let f := { f with message := f.message.position 60 25 }
    let s := { s with form := f }
    some (if r.1 ≠ 0 then some s.form.input_value else none, s)

/-- The function `fl_input`. -/
def fl_input (env : Env) (s : State) (fmt : String) (defstr : Option String)
    (ap : List (Option String)) (evs : List Event) : Option (Option String × State) :=
  if s.avoidRecursion ≠ 0 then some (none, s)
  else input_innards env s fmt ap defstr env.FL_NORMAL_INPUT evs

/-- The function `fl_password`. -/
def fl_password (env : Env) (s : State) (fmt : String) (defstr : Option String)
    (ap : List (Option String)) (evs : List Event) : Option (Option String × State) :=
  if s.avoidRecursion ≠ 0 then some (none, s)
  else input_innards env s fmt ap defstr env.FL_SECRET_INPUT evs

/-! ## Position, hotspot and title -/

/-- The setter `fl_message_position(x, y, center)`. -/
def fl_message_position (s : State) (x y center : Int) : State :=
  let s := { s with form_x := x }
  let s := { s with form_y := y }
  { s with form_position := if center ≠ 0 then 2 else 1 }

/-- The setter `fl_message_position(widget)`. -/
def fl_message_position_widget (s : State) (widget : Widget) : State :=
  let s := { s with form_x := widget.x + (widget.w).tdiv 2 }
  let s := { s with form_y := widget.y + (widget.h).tdiv 2 }
  { s with form_position := 2 }

/-- The getter `fl_message_position(int *x, int *y)`. An argument is `none`
for a null pointer and the old content of the pointee otherwise; the result
is the return value with the new contents of the pointees. -/
def fl_message_position_get (s : State) (x y : Option Int) : Int × Option Int × Option Int :=
  let x := match x with
    | some _ => some (if s.form_position ≠ 0 then s.form_x else -1)
    | none => none
  let y := match y with
    | some _ => some (if s.form_position ≠ 0 then s.form_y else -1)
    | none => none
  (s.form_position, x, y)

/-- The setter `fl_message_hotspot(enable)`. -/
def fl_message_hotspot (s : State) (enable : Int) : State :=
  { s with enableHotspot := if enable ≠ 0 then 1 else 0 }

/-- The getter `fl_message_hotspot()`. -/
def fl_message_hotspot_get (s : State) : Int :=
  s.enableHotspot

/-- The function `fl_message_title`: the title is copied into the label of
the window. -/
def fl_message_title (env : Env) (s : State) (title : Option String) : State :=
  let s := makeform env s
  { s with form := { s.form with message_form := { s.form.message_form with label := title } } }

/-- The function `fl_message_title_default`. -/
def fl_message_title_default (s : State) (title : Option String) : State :=
  let s := if s.message_title_default ≠ none then { s with message_title_default := none } else s
  match title with
  | some t => { s with message_title_default := some t }
  | none => s

/-! ## A concrete toolkit for evaluation -/

/-- One edge in the group resize of FLTK: `X` is the original place of a
left or right (top or bottom) edge of a child, `IX` and `IR` are the original
edges of the resizable box and `d` is the growth of the window since the
original sizes were recorded. An edge beyond the box moves with the far edge
of the window, an edge inside the box is scaled with the box, an edge before
the box stays. -/
def scaleEdge (IX IR d X : Int) : Int :=
  if X ≥ IR then X + d
  else if X > IX then IX + ((X - IX) * (IR + d - IX) + (IR - IX).tdiv 2).tdiv (IR - IX)
  else X

/-- The edges `(IX, IR, IY, IB)` of the resizable box as FLTK records them
with the original sizes (`Fl_Group::sizes()`): the box clipped to the window,
whose own edges are 0, `w`, 0 and `h`. -/
def clipBox (p : Placing) : Int × Int × Int × Int :=
  let r := p.rects.resizable
  (if r.1 > 0 then r.1 else 0,
   if r.1 + r.2.2.1 < p.w then r.1 + r.2.2.1 else p.w,
   if r.2.1 > 0 then r.2.1 else 0,
   if r.2.1 + r.2.2.2 < p.h then r.2.1 + r.2.2.2 else p.h)

/-- The rectangle of a child in the group resize of FLTK; `box` holds the
original edges `(IX, IR, IY, IB)` of the resizable box, `dw` and `dh` are the
growth of the window and `r` is the original rectangle of the child. -/
def scaleRect (box : Int × Int × Int × Int) (dw dh : Int) (r : Rect) : Rect :=
  let XX := scaleEdge box.1 box.2.1 dw r.1
  let R := scaleEdge box.1 box.2.1 dw (r.1 + r.2.2.1)
  let YY := scaleEdge box.2.2.1 box.2.2.2 dh r.2.1
  let B := scaleEdge box.2.2.1 box.2.2.2 dh (r.2.1 + r.2.2.2)
  (XX, YY, R - XX, B - YY)

/-- The group resize of FLTK for the dialog window (`Fl_Window::resize` and
`Fl_Group::resize`): nothing happens when the size stays; otherwise the
original sizes are recorded if they are not yet, and every child, the
resizable box included, is placed from its original rectangle and the growth
of the window since then. -/
def fltkGroupResize (cur : Placing) (sizes : Option Placing) (W H : Int) :
    Rects × Option Placing :=
  if W = cur.w ∧ H = cur.h then (cur.rects, sizes)
  else
    let p := sizes.getD cur
    let dw := W - p.w
    let dh := H - p.h
    let box := clipBox p
    ({ message := scaleRect box dw dh p.rects.message,
       icon := scaleRect box dw dh p.rects.icon,
       input := scaleRect box dw dh p.rects.input,
       button0 := scaleRect box dw dh p.rects.button0,
       button1 := scaleRect box dw dh p.rects.button1,
       button2 := scaleRect box dw dh p.rects.button2,
       resizable := scaleRect box dw dh p.rects.resizable }, some p)

/-- A toolkit with a fixed width font: a character is 8 wide, a line 16 high,
a null or empty label measures 0 x 0. The window resize lays out the children
the way FLTK does. -/
def testEnv : Env :=
  { fl_measure := fun _ _ l =>
      match l with
      | some t => if t.length = 0 then (0, 0) else (8 * (t.length : Int), 16)
      | none => (0, 0),
    group_resize := fltkGroupResize,
    vsnprintf := fun n fmt _ => String.mk (fmt.data.take (n - 1)),
    label_shortcut := fun l => if '&' ∈ l.data then 1 else 0,
    FL_NORMAL_SIZE := 14,
    FL_HELVETICA := 0,
    FL_TIMES_BOLD := 9,
    FL_Escape := 65307,
    FL_NORMAL_INPUT := 0,
    FL_SECRET_INPUT := 5 }

/-! ## Notions used to state the properties -/

/-- Padded width of button `i` as the first loop of `resizeform` computes it:
the value of `button_w[i]` after the loop. -/
def paddedWidth (env : Env) (f : Form) (i : Nat) : Int :=
  if (f.button i).visible then
    (env.fl_measure (f.button 0).labelfont (f.button 0).labelsize (f.button i).label).1
      + (if i = 1 then 20 else 0) + 30
  else 0

/-- The form after the two window resizes of `resizeform` (lines 135 and
182), before the widgets are placed: where the toolkit has put the children. -/
def windowSized (env : Env) (f : Form) : Form :=
  (f.size env 410 103).size env (layout env f).w (layout env f).h

/-- The window resize of the toolkit puts the children back: a window with
no recorded sizes that is resized and then resized back to the size it had
has its children where they were. -/
def Env.ResizeRestores (env : Env) : Prop :=
  ∀ (cur : Placing) (W H : Int),
    (env.group_resize { w := W, h := H, rects := (env.group_resize cur none W H).1 }
      (env.group_resize cur none W H).2 cur.w cur.h).1 = cur.rects

/-- The part of `resizeform` that follows the second window resize (lines
183-199): the size range is set and the message box, the icon, the input
field and the buttons with a non-zero width are placed from the layout `L`. -/
def placeWidgets (L : Layout) (f : Form) : Form :=
  let icon_size : Int := 50
  let f := { f with size_range := some (L.w, L.h, L.w, L.h) }
  let f := { f with message := f.message.resize (20 + icon_size) 10 L.message_w L.message_h }
  let f := { f with icon := f.icon.resize 10 10 icon_size icon_size }
  let f := { f with icon := { f.icon with labelsize := icon_size - 10 } }
  let f := { f with input := f.input.resize (20 + icon_size) (10 + L.message_h) L.message_w 25 }
  ([0, 1, 2].foldl (placeButton L) (L.w, f)).2

/-- The rectangle of widget `r` lies inside the window of `f`: widget
coordinates are relative to the window, which spans `[0,w] x [0,h]`. -/
def Form.encloses (f : Form) (r : Widget) : Prop :=
  0 ≤ r.x ∧ 0 ≤ r.y ∧ r.x + r.w ≤ f.message_form.w ∧ r.y + r.h ≤ f.message_form.h

instance (f : Form) (r : Widget) : Decidable (f.encloses r) := by
  unfold Form.encloses; infer_instance

/-- What `resizeform` reads: label, font and size of the message, label and
visibility of each button, font and size of button 0 (used to measure all
three), and the visibility of the input field. -/
def Form.layoutInputs (f : Form) :
    (Option String × Int × Int) × (Option String × Bool) × (Option String × Bool) ×
      (Option String × Bool) × (Int × Int) × Bool :=
  ((f.message.label, f.message.labelfont, f.message.labelsize),
   (f.button0.label, f.button0.visible), (f.button1.label, f.button1.visible),
   (f.button2.label, f.button2.visible), (f.button0.labelfont, f.button0.labelsize),
   f.input.visible)

/-- A dialog with the buttons "No" and "Yes" and slot 2 hidden, as `fl_ask`
sets it up. -/
def twoButtonForm : Form :=
  setButtons (newForm testEnv) (some "No") (some "Yes") none

/-- The same dialog with the hidden button 2 at another place. -/
def twoButtonFormMoved : Form :=
  { twoButtonForm with button2 := twoButtonForm.button2.position 0 0 }

/-- A fresh dialog whose message is the short text "hi", which `testEnv`
measures as 16 x 16. -/
def shortMessageForm : Form :=
  { newForm testEnv with message := { (newForm testEnv).message with label := some "hi" } }

/-- The presenter while a first dialog is on the screen: the state in which
the wait loop of `innards` runs. -/
def activeState : State :=
  (innards_show testEnv (State.init testEnv) "%s" [some "busy"] none (some "Close") none).1

/-- The event ends the wait loop in state `s`: an activated button must
exist and be visible. -/
def Event.ends (s : State) : Event → Bool
  | Event.push b => decide (b < 3) && (s.form.button b).visible
  | Event.close => true
  | Event.hide => true
  | Event.edit _ => false
  | Event.other => false

/-- The event ends a dialog that `innards` has set up with the button labels
`b0 b1 b2`: a button is visible exactly when its label is not null. -/
def Event.endsFor (b0 b1 b2 : Option String) : Event → Bool
  | Event.push 0 => b0.isSome
  | Event.push 1 => b1.isSome
  | Event.push 2 => b2.isSome
  | Event.push _ => false
  | Event.close => true
  | Event.hide => true
  | Event.edit _ => false
  | Event.other => false

/-- The value of `ret_val` after an ending event when it was `old` before:
a callback stores its argument, a bare hide stores nothing. -/
def Event.result (old : Int) : Event → Int
  | Event.push b => b
  | Event.close => 0
  | _ => old

/-- The text of the input field after the events `pre`, starting from `t0`;
`visible` is the visibility of the field. -/
def textAfter (visible : Bool) (t0 : String) (pre : List Event) : String :=
  pre.foldl (fun t e => match e with
    | Event.edit x => if visible then x else t
    | _ => t) t0

/-- The state `s` with the window hidden, `ret_val = r` and the text `t` in
the input field. -/
def State.closed (s : State) (r : Int) (t : String) : State :=
  { s with ret_val := r, form := { s.form.hide with input_value := t } }

/-- The state `s` with the text `t` in the input field. -/
def State.withText (s : State) (t : String) : State :=
  { s with form := { s.form with input_value := t } }

/-- The form on which `innards` calls `resizeform`. -/
def beforeResize (env : Env) (s : State) (fmt : String) (ap : List (Option String))
    (b0 b1 b2 : Option String) : Form :=
  setIcon s (setButtons (setMessage env s (makeform env s).form fmt ap) b0 b1 b2)

/-- The label given to slot `i` of a dialog with the button labels `b0 b1 b2`. -/
def slotLabel (b0 b1 b2 : Option String) : Nat → Option String
  | 0 => b0
  | 1 => b1
  | 2 => b2
  | _ => none

/-- The state in which `input_innards` calls `innards` (lines 459-465): the
form exists, the input field is shown and holds the default text. -/
def inputState (env : Env) (s : State) (defstr : Option String) (type : Int) : State :=
  { makeform env s with
    form := { (makeform env s).form.size env 410 103 with
      message := ((makeform env s).form.size env 410 103).message.position 60 10,
      input_type := type,
      input := { ((makeform env s).form.size env 410 103).input with visible := true },
      input_value := defstr.getD "",
      focus := Focus.input } }

/-- The one-shot title waiting in the window label: `message_form->label()`,
null while the form does not exist. -/
def State.title (s : State) : Option String :=
  if s.made then s.form.message_form.label else none

/-- The dialog `F` is what a dialog function called in state `s` puts on the
screen, and `s1` is the state in which the call returns: the title, the
placement and the position of the displayed window, and the settings that the
call consumes or keeps. -/
def Presented (s : State) (F : Form) (s1 : State) : Prop :=
  s1.screen = F :: s.screen ∧
  F.message_form.label =
    (if s.title = none ∧ s.message_title_default ≠ none then s.message_title_default
     else s.title) ∧
  F.placement =
    (if s.form_position ≠ 0 then
      Placement.position
        (if s.form_position = 2 then s.form_x - (F.message_form.w).tdiv 2 else s.form_x)
        (if s.form_position = 2 then s.form_y - (F.message_form.h).tdiv 2 else s.form_y)
     else if s.enableHotspot ≠ 0 then Placement.hotspot else Placement.free) ∧
  (s.form_position ≠ 0 →
    F.message_form.x =
      (if s.form_position = 2 then s.form_x - (F.message_form.w).tdiv 2 else s.form_x) ∧
    F.message_form.y =
      (if s.form_position = 2 then s.form_y - (F.message_form.h).tdiv 2 else s.form_y)) ∧
  s1.made = true ∧ s1.avoidRecursion = 0 ∧ s1.form_position = 0 ∧ s1.title = none ∧
  s1.message_title_default = s.message_title_default ∧ s1.enableHotspot = s.enableHotspot ∧
  s1.fl_no = s.fl_no ∧ s1.fl_yes = s.fl_yes ∧ s1.fl_ok = s.fl_ok ∧
  s1.fl_cancel = s.fl_cancel ∧ s1.fl_close = s.fl_close

/-- The dialog that `innards` hands to `Fl_Window::show()`. -/
def shownForm (env : Env) (s : State) (fmt : String) (ap : List (Option String))
    (b0 b1 b2 : Option String) : Form :=
  (innards_show env s fmt ap b0 b1 b2).1.form

/-- The state in which `innards`, called in state `s`, returns after it has
shown the dialog `F`, when the wait loop left `r` in `ret_val` and `t` in the
input field: the window is hidden, icon label and title are reset, the grab
is restored, the pending position is used up and the guard is cleared. -/
def afterDialog (env : Env) (s : State) (F : Form) (r : Int) (t : String) : State :=
  { makeform env s with
    pushed := false,
    avoidRecursion := 0,
    form_x := if s.form_position ≠ 0 then 0 else s.form_x,
    form_y := if s.form_position ≠ 0 then 0 else s.form_y,
    form_position := 0,
    ret_val := r,
    screen := F :: s.screen,
    form := { F.hide with
      input_value := t,
      icon := { F.icon with label := (makeform env s).form.icon.label },
      message_form := { F.hide.message_form with label := none } } }

/-- A call of one of the six dialog functions with its arguments. -/
inductive Dialog where
  | message (fmt : String) (ap : List (Option String))
  | alert (fmt : String) (ap : List (Option String))
  | ask (fmt : String) (ap : List (Option String))
  | choice (fmt : String) (b0 b1 b2 : Option String) (ap : List (Option String))
  | input (fmt : String) (defstr : Option String) (ap : List (Option String))
  | password (fmt : String) (defstr : Option String) (ap : List (Option String))
deriving DecidableEq, Repr

/-- The state after the dialog call `d` made in state `s`, `none` when the
call never returns. -/
def Dialog.run (env : Env) (s : State) (d : Dialog) (evs : List Event) : Option State :=
  match d with
  | Dialog.message fmt ap => fl_message env s fmt ap evs
  | Dialog.alert fmt ap => fl_alert env s fmt ap evs
  | Dialog.ask fmt ap => (fl_ask env s fmt ap evs).map Prod.snd
  | Dialog.choice fmt b0 b1 b2 ap => (fl_choice env s fmt b0 b1 b2 ap evs).map Prod.snd
  | Dialog.input fmt defstr ap => (fl_input env s fmt defstr ap evs).map Prod.snd
  | Dialog.password fmt defstr ap => (fl_password env s fmt defstr ap evs).map Prod.snd

/-- The slots whose button the dialog `d` shows: those with a label that is
not null among the labels that `d` passes to `innards`. -/
def Dialog.slots : Dialog → Bool × Bool × Bool
  | Dialog.message _ _ => (false, true, false)
  | Dialog.alert _ _ => (false, true, false)
  | Dialog.ask _ _ => (true, true, false)
  | Dialog.choice _ b0 b1 b2 _ => (b0.isSome, b1.isSome, b2.isSome)
  | Dialog.input _ _ _ => (true, true, false)
  | Dialog.password _ _ _ => (true, true, false)

/-- The event ends the dialog `d`: it activates a button that `d` shows,
closes the window or hides it. -/
def Dialog.endedBy (d : Dialog) : Event → Bool
  | Event.push 0 => d.slots.1
  | Event.push 1 => d.slots.2.1
  | Event.push 2 => d.slots.2.2
  | Event.push _ => false
  | Event.close => true
  | Event.hide => true
  | Event.edit _ => false
  | Event.other => false

/-- The events `evs` end the dialog `d`: some event of `evs` ends `d`. Then
`evs` splits into the events before the first such event, which leave the
dialog open, that event, and the rest. -/
def Dialog.Ends (d : Dialog) (evs : List Event) : Prop :=
  ∃ pre e post, evs = pre ++ e :: post ∧ (∀ x ∈ pre, d.endedBy x = false) ∧ d.endedBy e = true

/-- A sequence of dialog calls, each with the events delivered while it
waits; `none` when one of them never returns. -/
def runAll (env : Env) (s : State) : List (Dialog × List Event) → Option State
  | [] => some s
  | c :: rest =>
    match c.1.run env s c.2 with
    | none => none
    | some s1 => runAll env s1 rest

/-- The presenter after an earlier `fl_ask` was answered with Yes: the form
exists and `ret_val` is 1. -/
def answeredYes : State :=
  ((fl_ask testEnv (State.init testEnv) "%s" [some "first"] [Event.push 1]).map Prod.snd).getD
    (State.init testEnv)

/-- The presenter after a caller has stored the label "X" in the icon widget
obtained from `fl_message_icon`. -/
def customIcon : State :=
  (fl_message_icon testEnv (State.init testEnv)).2.iconLabel (some "X")

/-- The sum `button_w[0] + ... + button_w[i]` of the padded widths up to slot
`i`: what the second loop of `resizeform` has subtracted from `x` when it
places button `i`. -/
def paddedUpTo (env : Env) (f : Form) : Nat → Int
  | 0 => paddedWidth env f 0
  | 1 => paddedWidth env f 0 + paddedWidth env f 1
  | _ => paddedWidth env f 0 + paddedWidth env f 1 + paddedWidth env f 2

/-- The rectangles of the widgets `a` and `b` share a point of positive
area. -/
def Widget.overlaps (a b : Widget) : Prop :=
  a.x < b.x + b.w ∧ b.x < a.x + a.w ∧ a.y < b.y + b.h ∧ b.y < a.y + a.h

instance (a b : Widget) : Decidable (a.overlaps b) := by
  unfold Widget.overlaps; infer_instance

/-- A dialog with a null message and three buttons whose labels have 16
characters each, which `testEnv` measures as 128 wide. -/
def wideButtonsForm : Form :=
  setButtons (newForm testEnv) (some "Discard changes!") (some "Save and proceed")
    (some "Return to editor")

/-! ## Lemmas on `resizeform` -/

theorem foldl_three {α : Type} (g : α → Nat → α) (a : α) :
    [0, 1, 2].foldl g a = g (g (g a 0) 1) 2 := rfl

theorem measureButton_max_h (env : Env) (f : Form) (acc : Arr3 × Arr3 × Int) (i : Nat) :
    acc.2.2 ≤ (measureButton env f acc i).2.2 := by
  unfold measureButton
  split
  · simp only []
    split <;> omega
  · exact le_refl _

theorem layout_button_w (env : Env) (f : Form) :
    (layout env f).button_w = ⟨paddedWidth env f 0, paddedWidth env f 1, paddedWidth env f 2⟩ := by
  simp only [layout, foldl_three, measureButton, paddedWidth, Form.button]
  cases f.button0.visible <;> cases f.button1.visible <;> cases f.button2.visible <;>
    simp [Arr3.set, Arr3.get]

theorem layout_max_h (env : Env) (f : Form) : 25 ≤ (layout env f).max_h := by
  simp only [layout, foldl_three]
  have h0 := measureButton_max_h env f (⟨0, 0, 0⟩, ⟨0, 0, 0⟩, 25) 0
  have h1 := measureButton_max_h env f (measureButton env f (⟨0, 0, 0⟩, ⟨0, 0, 0⟩, 25) 0) 1
  have h2 := measureButton_max_h env f
    (measureButton env f (measureButton env f (⟨0, 0, 0⟩, ⟨0, 0, 0⟩, 25) 0) 1) 2
  simp only [] at h0
  omega

theorem layout_scalars (env : Env) (f : Form) :
    (layout env f).message_h =
        max ((env.fl_measure f.message.labelfont f.message.labelsize f.message.label).2 + 10) 30 ∧
    (layout env f).text_height =
        (layout env f).message_h + (if f.input.visible then 25 else 0) ∧
    (layout env f).max_w =
        max (max ((env.fl_measure f.message.labelfont f.message.labelsize f.message.label).1 + 10) 340 + 60)
          (paddedWidth env f 0 + paddedWidth env f 1 + paddedWidth env f 2 - 10) ∧
    (layout env f).message_w = (layout env f).max_w - 60 ∧
    (layout env f).w = (layout env f).max_w + 20 ∧
    (layout env f).h = (layout env f).max_h + 30 + (layout env f).text_height := by
  have hb := layout_button_w env f
  have h0 : (layout env f).button_w.get 0 = paddedWidth env f 0 := by rw [hb]; rfl
  have h1 : (layout env f).button_w.get 1 = paddedWidth env f 1 := by rw [hb]; rfl
  have h2 : (layout env f).button_w.get 2 = paddedWidth env f 2 := by rw [hb]; rfl
  simp only [layout] at h0 h1 h2 ⊢
  rw [h0, h1, h2]
  refine ⟨?_, ?_, ?_, ?_, ?_, ?_⟩
  · split_ifs <;> omega
  · split_ifs <;> omega
  · split_ifs <;> omega
  · omega
  · trivial
  · trivial

theorem layout_congr (env : Env) (f g : Form) (h : f.layoutInputs = g.layoutInputs) :
    layout env f = layout env g := by
  simp only [Form.layoutInputs, Prod.mk.injEq] at h
  obtain ⟨⟨a1, a2, a3⟩, ⟨b1, b2⟩, ⟨c1, c2⟩, ⟨d1, d2⟩, ⟨e1, e2⟩, i1⟩ := h
  simp only [layout, foldl_three, measureButton, Form.button, a1, a2, a3, b1, b2, c1, c2, d1, d2,
    e1, e2, i1]

theorem paddedWidth_congr (env : Env) (f g : Form) (h : f.layoutInputs = g.layoutInputs)
    (i : Nat) : paddedWidth env f i = paddedWidth env g i := by
  simp only [Form.layoutInputs, Prod.mk.injEq] at h
  obtain ⟨-, ⟨b1, b2⟩, ⟨c1, c2⟩, ⟨d1, d2⟩, ⟨e1, e2⟩, -⟩ := h
  match i with
  | 0 => simp only [paddedWidth, Form.button, b1, b2, e1, e2]
  | 1 => simp only [paddedWidth, Form.button, c1, c2, e1, e2]
  | (n + 2) => simp only [paddedWidth, Form.button, d1, d2, e1, e2]

theorem layoutInputs_size (env : Env) (f : Form) (W H : Int) :
    (f.size env W H).layoutInputs = f.layoutInputs := rfl

theorem layout_size (env : Env) (f : Form) (W H : Int) :
    layout env (f.size env W H) = layout env f :=
  layout_congr env _ _ (layoutInputs_size env f W H)

theorem paddedWidth_size (env : Env) (f : Form) (W H : Int) (i : Nat) :
    paddedWidth env (f.size env W H) i = paddedWidth env f i :=
  paddedWidth_congr env _ _ (layoutInputs_size env f W H) i

theorem layoutInputs_windowSized (env : Env) (f : Form) :
    (windowSized env f).layoutInputs = f.layoutInputs := rfl

/-- The function `resizeform` is the two window resizes, the placing of the
widgets and `init_sizes()`. -/
theorem resizeform_unfold (env : Env) (f : Form) :
    resizeform env f = (placeWidgets (layout env f) (windowSized env f)).init_sizes := by
  have h : resizeform env f =
      (placeWidgets (layout env (f.size env 410 103))
        ((f.size env 410 103).size env (layout env (f.size env 410 103)).w
          (layout env (f.size env 410 103)).h)).init_sizes := rfl
  rw [h, layout_size]
  rfl

theorem placeWidgets_fixed (L : Layout) (g : Form) :
    (placeWidgets L g).message_form = g.message_form ∧
    (placeWidgets L g).size_range = some (L.w, L.h, L.w, L.h) ∧
    (placeWidgets L g).message = g.message.resize 70 10 L.message_w L.message_h ∧
    (placeWidgets L g).icon = { g.icon.resize 10 10 50 50 with labelsize := 40 } ∧
    (placeWidgets L g).input = g.input.resize 70 (10 + L.message_h) L.message_w 25 ∧
    (placeWidgets L g).shown = g.shown ∧ (placeWidgets L g).placement = g.placement ∧
    (placeWidgets L g).input_value = g.input_value ∧ (placeWidgets L g).input_type = g.input_type ∧
    (placeWidgets L g).shortcut0 = g.shortcut0 ∧ (placeWidgets L g).focus = g.focus ∧
    (placeWidgets L g).resizable = g.resizable ∧ (placeWidgets L g).sizes = g.sizes := by
  simp only [placeWidgets, foldl_three, placeButton]
  split_ifs <;> simp [Form.setButton, Widget.resize]

theorem placeWidgets_buttons (L : Layout) (g : Form) :
    (placeWidgets L g).button0 =
      (if L.button_w.get 0 ≠ 0 then
        g.button0.resize (L.w - L.button_w.get 0) (L.h - 10 - L.max_h) (L.button_w.get 0 - 10) L.max_h
       else g.button0) ∧
    (placeWidgets L g).button1 =
      (if L.button_w.get 1 ≠ 0 then
        g.button1.resize (L.w - L.button_w.get 0 - L.button_w.get 1) (L.h - 10 - L.max_h)
          (L.button_w.get 1 - 10) L.max_h
       else g.button1) ∧
    (placeWidgets L g).button2 =
      (if L.button_w.get 2 ≠ 0 then
        g.button2.resize (L.w - L.button_w.get 0 - L.button_w.get 1 - L.button_w.get 2)
          (L.h - 10 - L.max_h) (L.button_w.get 2 - 10) L.max_h
       else g.button2) := by
  simp only [placeWidgets, foldl_three, placeButton]
  split_ifs <;> simp_all [Form.setButton, Form.button, Widget.resize]

theorem resizeform_fixed (env : Env) (f : Form) :
    (resizeform env f).message_form = f.message_form.size (layout env f).w (layout env f).h ∧
    (resizeform env f).size_range =
      some ((layout env f).w, (layout env f).h, (layout env f).w, (layout env f).h) ∧
    (resizeform env f).message = f.message.resize 70 10 (layout env f).message_w (layout env f).message_h ∧
    (resizeform env f).icon = { f.icon.resize 10 10 50 50 with labelsize := 40 } ∧
    (resizeform env f).input =
      f.input.resize 70 (10 + (layout env f).message_h) (layout env f).message_w 25 ∧
    (resizeform env f).shown = f.shown ∧ (resizeform env f).placement = f.placement ∧
    (resizeform env f).input_value = f.input_value ∧ (resizeform env f).input_type = f.input_type ∧
    (resizeform env f).shortcut0 = f.shortcut0 ∧ (resizeform env f).focus = f.focus ∧
    (resizeform env f).resizable = (windowSized env f).resizable ∧
    (resizeform env f).sizes = none := by
  obtain ⟨a1, a2, a3, a4, a5, a6, a7, a8, a9, a10, a11, a12, -⟩ :=
    placeWidgets_fixed (layout env f) (windowSized env f)
  rw [resizeform_unfold]
  simp only [Form.init_sizes]
  exact ⟨a1.trans rfl, a2, a3.trans rfl, a4.trans rfl, a5.trans rfl, a6.trans rfl, a7.trans rfl,
    a8.trans rfl, a9.trans rfl, a10.trans rfl, a11.trans rfl, a12, trivial⟩

theorem resizeform_buttons (env : Env) (f : Form) :
    (resizeform env f).button0 =
      (if paddedWidth env f 0 ≠ 0 then
        f.button0.resize ((layout env f).w - paddedWidth env f 0)
          ((layout env f).h - 10 - (layout env f).max_h) (paddedWidth env f 0 - 10) (layout env f).max_h
       else (windowSized env f).button0) ∧
    (resizeform env f).button1 =
      (if paddedWidth env f 1 ≠ 0 then
        f.button1.resize ((layout env f).w - paddedWidth env f 0 - paddedWidth env f 1)
          ((layout env f).h - 10 - (layout env f).max_h) (paddedWidth env f 1 - 10) (layout env f).max_h
       else (windowSized env f).button1) ∧
    (resizeform env f).button2 =
      (if paddedWidth env f 2 ≠ 0 then
        f.button2.resize ((layout env f).w - paddedWidth env f 0 - paddedWidth env f 1 - paddedWidth env f 2)
          ((layout env f).h - 10 - (layout env f).max_h) (paddedWidth env f 2 - 10) (layout env f).max_h
       else (windowSized env f).button2) := by
  have hb := layout_button_w env f
  have h0 : (layout env f).button_w.get 0 = paddedWidth env f 0 := by rw [hb]; rfl
  have h1 : (layout env f).button_w.get 1 = paddedWidth env f 1 := by rw [hb]; rfl
  have h2 : (layout env f).button_w.get 2 = paddedWidth env f 2 := by rw [hb]; rfl
  obtain ⟨b0, b1, b2⟩ := placeWidgets_buttons (layout env f) (windowSized env f)
  simp only [h0, h1, h2] at b0 b1 b2
  rw [resizeform_unfold]
  simp only [Form.init_sizes]
  refine ⟨b0.trans ?_, b1.trans ?_, b2.trans ?_⟩ <;> split_ifs <;> rfl

theorem resizeform_visible (env : Env) (f : Form) (i : Nat) :
    ((resizeform env f).button i).visible = (f.button i).visible := by
  obtain ⟨h0, h1, h2⟩ := resizeform_buttons env f
  match i with
  | 0 => simp only [Form.button, h0]; split_ifs <;> rfl
  | 1 => simp only [Form.button, h1]; split_ifs <;> rfl
  | (n + 2) => simp only [Form.button, h2]; split_ifs <;> rfl

theorem paddedWidth_pos (env : Env) (f : Form) (i : Nat)
    (hv : (f.button i).visible = true)
    (hm : 0 ≤ (env.fl_measure (f.button 0).labelfont (f.button 0).labelsize (f.button i).label).1) :
    30 ≤ paddedWidth env f i := by
  unfold paddedWidth
  rw [if_pos hv]
  split_ifs <;> omega

theorem paddedWidth_hidden (env : Env) (f : Form) (i : Nat)
    (hv : (f.button i).visible = false) : paddedWidth env f i = 0 := by
  unfold paddedWidth
  simp [hv]

/-- C2. After `resizeform` the window is at least as wide as the message box
plus the 50 pixel icon plus the gap of 10 and at least as wide as all visible
buttons together, at least as high as the text block plus the button row, and
the message box, the icon, the input field and every visible button lie inside
the window; the measured widths of the visible button labels are not negative. -/
theorem resizeform_fits (env : Env) (f : Form)
    (hm : ∀ i, i < 3 → (f.button i).visible = true →
      0 ≤ (env.fl_measure (f.button 0).labelfont (f.button 0).labelsize (f.button i).label).1) :
    (resizeform env f).message.w + 50 + 10 ≤ (resizeform env f).message_form.w ∧
    (if (resizeform env f).button0.visible then (resizeform env f).button0.w else 0)
      + (if (resizeform env f).button1.visible then (resizeform env f).button1.w else 0)
      + (if (resizeform env f).button2.visible then (resizeform env f).button2.w else 0)
      ≤ (resizeform env f).message_form.w ∧
    (layout env f).text_height + (layout env f).max_h ≤ (resizeform env f).message_form.h ∧
    (resizeform env f).encloses (resizeform env f).message ∧
    (resizeform env f).encloses (resizeform env f).icon ∧
    (resizeform env f).encloses (resizeform env f).input ∧
    ∀ i, i < 3 → ((resizeform env f).button i).visible = true →
      (resizeform env f).encloses ((resizeform env f).button i) := by
  obtain ⟨hmh, hth, hmw, hmsg, hw, hh⟩ := layout_scalars env f
  obtain ⟨rw1, -, rm, ri, rin, -⟩ := resizeform_fixed env f
  obtain ⟨rb0, rb1, rb2⟩ := resizeform_buttons env f
  have hmax := layout_max_h env f
  have p0 : paddedWidth env f 0 = 0 ∨ 30 ≤ paddedWidth env f 0 := by
    cases hv : (f.button 0).visible
    · exact Or.inl (paddedWidth_hidden env f 0 hv)
    · exact Or.inr (paddedWidth_pos env f 0 hv (hm 0 (by omega) hv))
  have p1 : paddedWidth env f 1 = 0 ∨ 30 ≤ paddedWidth env f 1 := by
    cases hv : (f.button 1).visible
    · exact Or.inl (paddedWidth_hidden env f 1 hv)
    · exact Or.inr (paddedWidth_pos env f 1 hv (hm 1 (by omega) hv))
  have p2 : paddedWidth env f 2 = 0 ∨ 30 ≤ paddedWidth env f 2 := by
    cases hv : (f.button 2).visible
    · exact Or.inl (paddedWidth_hidden env f 2 hv)
    · exact Or.inr (paddedWidth_pos env f 2 hv (hm 2 (by omega) hv))
  have v0 := resizeform_visible env f 0
  have v1 := resizeform_visible env f 1
  have v2 := resizeform_visible env f 2
  simp only [Form.button] at v0 v1 v2
  have q0 : f.button0.visible = false → paddedWidth env f 0 = 0 := paddedWidth_hidden env f 0
  have q1 : f.button1.visible = false → paddedWidth env f 1 = 0 := paddedWidth_hidden env f 1
  have q2 : f.button2.visible = false → paddedWidth env f 2 = 0 := paddedWidth_hidden env f 2
  have ht : (layout env f).message_h ≤ (layout env f).text_height := by
    rw [hth]; split_ifs <;> omega
  have ht2 : f.input.visible = true → (layout env f).text_height = (layout env f).message_h + 25 := by
    intro h; rw [hth, if_pos h]
  refine ⟨?_, ?_, ?_, ?_, ?_, ?_, ?_⟩
  · rw [rw1, rm]; simp only [Widget.size, Widget.resize]; omega
  · have r0 : f.button0.visible = true → 30 ≤ paddedWidth env f 0 :=
      fun hv => paddedWidth_pos env f 0 hv (hm 0 (by omega) hv)
    have r1 : f.button1.visible = true → 30 ≤ paddedWidth env f 1 :=
      fun hv => paddedWidth_pos env f 1 hv (hm 1 (by omega) hv)
    have r2 : f.button2.visible = true → 30 ≤ paddedWidth env f 2 :=
      fun hv => paddedWidth_pos env f 2 hv (hm 2 (by omega) hv)
    have t0 : (if (resizeform env f).button0.visible then (resizeform env f).button0.w else 0)
        ≤ paddedWidth env f 0 := by
      rw [v0, rb0]
      cases hv : f.button0.visible
      · simp [q0 hv]
      · have := r0 hv
        have hne : paddedWidth env f 0 ≠ 0 := by omega
        simp only [if_pos hne, Widget.resize, if_true]; omega
    have t1 : (if (resizeform env f).button1.visible then (resizeform env f).button1.w else 0)
        ≤ paddedWidth env f 1 := by
      rw [v1, rb1]
      cases hv : f.button1.visible
      · simp [q1 hv]
      · have := r1 hv
        have hne : paddedWidth env f 1 ≠ 0 := by omega
        simp only [if_pos hne, Widget.resize, if_true]; omega
    have t2 : (if (resizeform env f).button2.visible then (resizeform env f).button2.w else 0)
        ≤ paddedWidth env f 2 := by
      rw [v2, rb2]
      cases hv : f.button2.visible
      · simp [q2 hv]
      · have := r2 hv
        have hne : paddedWidth env f 2 ≠ 0 := by omega
        simp only [if_pos hne, Widget.resize, if_true]; omega
    rw [rw1]; simp only [Widget.size, Widget.resize]; omega
  · rw [rw1]; simp only [Widget.size, Widget.resize]; omega
  · unfold Form.encloses; rw [rw1, rm]; simp only [Widget.size, Widget.resize]; omega
  · unfold Form.encloses; rw [rw1, ri]; simp only [Widget.size, Widget.resize]; omega
  · unfold Form.encloses; rw [rw1, rin]; simp only [Widget.size, Widget.resize]; omega
  · intro i hi hv
    rw [resizeform_visible] at hv
    unfold Form.encloses
    rw [rw1]
    have hp := paddedWidth_pos env f i hv (hm i hi hv)
    match i, hi with
    | 0, _ =>
      simp only [Form.button]
      have hne : paddedWidth env f 0 ≠ 0 := by omega
      rw [rb0, if_pos hne]; simp only [Widget.size, Widget.resize]; omega
    | 1, _ =>
      simp only [Form.button]
      have hne : paddedWidth env f 1 ≠ 0 := by omega
      rw [rb1, if_pos hne]; simp only [Widget.size, Widget.resize]; omega
    | 2, _ =>
      simp only [Form.button]
      have hne : paddedWidth env f 2 ≠ 0 := by omega
      rw [rb2, if_pos hne]; simp only [Widget.size, Widget.resize]; omega

theorem testEnv_measure_nonneg (font size : Int) (l : Option String) :
    0 ≤ (testEnv.fl_measure font size l).1 := by
  unfold testEnv
  cases l with
  | none => simp
  | some t => simp only []; split_ifs <;> simp

theorem resizeform_fits_witness :
    (∀ i, i < 3 → (twoButtonForm.button i).visible = true →
      0 ≤ (testEnv.fl_measure (twoButtonForm.button 0).labelfont
        (twoButtonForm.button 0).labelsize (twoButtonForm.button i).label).1) ∧
    (resizeform testEnv twoButtonForm).encloses (resizeform testEnv twoButtonForm).message ∧
    (resizeform testEnv twoButtonForm).encloses (resizeform testEnv twoButtonForm).button1 := by
  have hm : ∀ i, i < 3 → (twoButtonForm.button i).visible = true →
      0 ≤ (testEnv.fl_measure (twoButtonForm.button 0).labelfont
        (twoButtonForm.button 0).labelsize (twoButtonForm.button i).label).1 :=
    fun i _ _ => testEnv_measure_nonneg _ _ _
  have h := resizeform_fits testEnv twoButtonForm hm
  exact ⟨hm, h.2.2.2.1, h.2.2.2.2.2.2 1 (by decide) (by decide)⟩
theorem resizeform_layoutInputs (env : Env) (f : Form) :
    (resizeform env f).layoutInputs = f.layoutInputs := by
  obtain ⟨-, -, rm, -, rin, -⟩ := resizeform_fixed env f
  obtain ⟨rb0, rb1, rb2⟩ := resizeform_buttons env f
  simp only [Form.layoutInputs, rm, rin, rb0, rb1, rb2]
  split_ifs <;> rfl

theorem layout_get (env : Env) (f : Form) (i : Nat) :
    (layout env f).button_w.get i = paddedWidth env f i := by
  rw [layout_button_w]
  match i with
  | 0 => rfl
  | 1 => rfl
  | (n + 2) => simp [Arr3.get, paddedWidth, Form.button]

theorem Widget.setRect_setRect (b : Widget) (r : Rect) : (b.setRect r).setRect b.rect = b := rfl

/-- A form whose window has the size `W` x `H` and no recorded sizes has its
children back after the window is resized to 410 x 103 and then to `W` x `H`,
when the window resize of the toolkit puts children back. -/
theorem size_size_restores (env : Env) (hr : env.ResizeRestores) (g : Form) (W H : Int)
    (hs : g.sizes = none) (hw : g.message_form.w = W) (hh : g.message_form.h = H) :
    ((g.size env 410 103).size env W H).button0 = g.button0 ∧
    ((g.size env 410 103).size env W H).button1 = g.button1 ∧
    ((g.size env 410 103).size env W H).button2 = g.button2 ∧
    ((g.size env 410 103).size env W H).resizable = g.resizable := by
  have key : (env.group_resize (g.size env 410 103).placing (g.size env 410 103).sizes W H).1
      = g.placing.rects := by
    have h := hr g.placing 410 103
    have e1 : (g.size env 410 103).placing
        = { w := 410, h := 103, rects := (env.group_resize g.placing none 410 103).1 } := by
      simp only [Form.size, hs]; rfl
    have e2 : (g.size env 410 103).sizes = (env.group_resize g.placing none 410 103).2 := by
      simp only [Form.size, hs]
    rw [e1, e2, ← hw, ← hh]
    exact h
  have b0 : ((g.size env 410 103).size env W H).button0
      = (g.size env 410 103).button0.setRect
        (env.group_resize (g.size env 410 103).placing (g.size env 410 103).sizes W H).1.button0 := rfl
  have b1 : ((g.size env 410 103).size env W H).button1
      = (g.size env 410 103).button1.setRect
        (env.group_resize (g.size env 410 103).placing (g.size env 410 103).sizes W H).1.button1 := rfl
  have b2 : ((g.size env 410 103).size env W H).button2
      = (g.size env 410 103).button2.setRect
        (env.group_resize (g.size env 410 103).placing (g.size env 410 103).sizes W H).1.button2 := rfl
  have b3 : ((g.size env 410 103).size env W H).resizable
      = (env.group_resize (g.size env 410 103).placing (g.size env 410 103).sizes W H).1.resizable := rfl
  rw [b0, b1, b2, b3, key]
  exact ⟨Widget.setRect_setRect _ _, Widget.setRect_setRect _ _, Widget.setRect_setRect _ _, rfl⟩

/-- Running `resizeform` a second time changes nothing when the window resize
of the toolkit puts children back. -/
theorem resizeform_twice (env : Env) (hr : env.ResizeRestores) (f : Form) :
    resizeform env (resizeform env f) = resizeform env f := by
  have hi := resizeform_layoutInputs env f
  have hl := layout_congr env _ _ hi
  have hp := paddedWidth_congr env _ _ hi
  obtain ⟨a1, a2, a3, a4, a5, a6, a7, a8, a9, a10, a11, a12, a13⟩ :=
    resizeform_fixed env (resizeform env f)
  obtain ⟨b0, b1, b2⟩ := resizeform_buttons env (resizeform env f)
  obtain ⟨c1, c2, c3, c4, c5, c6, c7, c8, c9, c10, c11, c12, c13⟩ := resizeform_fixed env f
  obtain ⟨d0, d1, d2⟩ := resizeform_buttons env f
  obtain ⟨r0, r1, r2, r3⟩ := size_size_restores env hr (resizeform env f) (layout env f).w
    (layout env f).h c13 (by rw [c1]; rfl) (by rw [c1]; rfl)
  have r0w : (windowSized env (resizeform env f)).button0 = (resizeform env f).button0 := by
    rw [windowSized, hl]; exact r0
  have r1w : (windowSized env (resizeform env f)).button1 = (resizeform env f).button1 := by
    rw [windowSized, hl]; exact r1
  have r2w : (windowSized env (resizeform env f)).button2 = (resizeform env f).button2 := by
    rw [windowSized, hl]; exact r2
  have r3w : (windowSized env (resizeform env f)).resizable = (resizeform env f).resizable := by
    rw [windowSized, hl]; exact r3
  rw [hl] at a1 a2 a3 a5 b0 b1 b2
  simp only [hp] at b0 b1 b2
  rw [r0w] at b0
  rw [r1w] at b1
  rw [r2w] at b2
  apply Form.ext
  · rw [a1, c1]; rfl
  · rw [a6]
  · rw [a2, c2]
  · rw [a7]
  · rw [a3, c3]; rfl
  · rw [a4, c4]; rfl
  · rw [a5, c5]; rfl
  · rw [a8]
  · rw [a9]
  · rw [b0]; split_ifs with hc
    · rw [d0, if_pos hc]; rfl
    · rfl
  · rw [b1]; split_ifs with hc
    · rw [d1, if_pos hc]; rfl
    · rfl
  · rw [b2]; split_ifs with hc
    · rw [d2, if_pos hc]; rfl
    · rfl
  · rw [a10]
  · rw [a11]
  · rw [a12, r3w]
  · rw [a13, c13]

theorem scaleEdge_zero (IX IR X : Int) : scaleEdge IX IR 0 X = X := by
  unfold scaleEdge
  split_ifs with h1 h2
  · omega
  · have hb : 0 < IR - IX := by omega
    have ha : 0 ≤ X - IX := by omega
    have h0 : 0 ≤ (IR - IX).tdiv 2 := Int.tdiv_nonneg (by omega) (by omega)
    have hlt : (IR - IX).tdiv 2 < IR - IX := by
      rw [Int.tdiv_eq_ediv (by omega) (by omega)]; omega
    have e : (X - IX) * (IR + 0 - IX) + (IR - IX).tdiv 2
        = (IR - IX).tdiv 2 + (IR - IX) * (X - IX) := by ring
    rw [e, Int.tdiv_eq_ediv (add_nonneg h0 (mul_nonneg hb.le ha)) hb.le,
      Int.add_mul_ediv_left _ _ (by omega),
      Int.ediv_eq_zero_of_lt h0 hlt]
    omega
  · rfl

theorem scaleRect_zero (box : Int × Int × Int × Int) (r : Rect) : scaleRect box 0 0 r = r := by
  obtain ⟨x, y, w, h⟩ := r
  simp only [scaleRect, scaleEdge_zero]
  simp

/-- The group resize of FLTK puts the children back. -/
theorem testEnv_restores : testEnv.ResizeRestores := by
  intro cur W H
  show (fltkGroupResize { w := W, h := H, rects := (fltkGroupResize cur none W H).1 }
    (fltkGroupResize cur none W H).2 cur.w cur.h).1 = cur.rects
  by_cases h : W = cur.w ∧ H = cur.h
  · have e : fltkGroupResize cur none W H = (cur.rects, none) := by
      unfold fltkGroupResize; rw [if_pos h]
    rw [e]
    unfold fltkGroupResize
    rw [if_pos ⟨h.1.symm, h.2.symm⟩]
  · have e : fltkGroupResize cur none W H =
        ({ message := scaleRect (clipBox cur) (W - cur.w) (H - cur.h) cur.rects.message,
           icon := scaleRect (clipBox cur) (W - cur.w) (H - cur.h) cur.rects.icon,
           input := scaleRect (clipBox cur) (W - cur.w) (H - cur.h) cur.rects.input,
           button0 := scaleRect (clipBox cur) (W - cur.w) (H - cur.h) cur.rects.button0,
           button1 := scaleRect (clipBox cur) (W - cur.w) (H - cur.h) cur.rects.button1,
           button2 := scaleRect (clipBox cur) (W - cur.w) (H - cur.h) cur.rects.button2,
           resizable := scaleRect (clipBox cur) (W - cur.w) (H - cur.h) cur.rects.resizable },
         some cur) := by
      unfold fltkGroupResize; rw [if_neg h]; rfl
    rw [e]
    have h2 : ¬ (cur.w = W ∧ cur.h = H) := fun hc => h ⟨hc.1.symm, hc.2.symm⟩
    unfold fltkGroupResize
    simp only [if_neg h2, Option.getD_some, sub_self, scaleRect_zero]

theorem measureButton_max_h_le (env : Env) (f : Form) (acc : Arr3 × Arr3 × Int) (i : Nat) (B : Int)
    (hacc : acc.2.2 ≤ B)
    (hm : (f.button i).visible = true →
      (env.fl_measure (f.button 0).labelfont (f.button 0).labelsize (f.button i).label).2 + 10 ≤ B) :
    (measureButton env f acc i).2.2 ≤ B := by
  unfold measureButton
  split
  · rename_i hv
    have := hm hv
    match i with
    | 0 => simp only [Arr3.set, Arr3.get]; split <;> omega
    | 1 => simp only [Arr3.set, Arr3.get]; split <;> omega
    | (n + 2) => simp only [Arr3.set, Arr3.get]; split <;> omega
  · exact hacc

/-- No intermediate value of `resizeform` leaves the range of a 32 bit `int`
when the measured sizes of the message and of the visible button labels lie
between 0 and `2^24`: the layout computed on `Int` is the one the C code
computes. -/
theorem layout_fits_int32 (env : Env) (f : Form)
    (hm : 0 ≤ (env.fl_measure f.message.labelfont f.message.labelsize f.message.label).1 ∧
      (env.fl_measure f.message.labelfont f.message.labelsize f.message.label).1 ≤ 2 ^ 24 ∧
      0 ≤ (env.fl_measure f.message.labelfont f.message.labelsize f.message.label).2 ∧
      (env.fl_measure f.message.labelfont f.message.labelsize f.message.label).2 ≤ 2 ^ 24)
    (hb : ∀ i, i < 3 → (f.button i).visible = true →
      0 ≤ (env.fl_measure (f.button 0).labelfont (f.button 0).labelsize (f.button i).label).1 ∧
      (env.fl_measure (f.button 0).labelfont (f.button 0).labelsize (f.button i).label).1 ≤ 2 ^ 24 ∧
      (env.fl_measure (f.button 0).labelfont (f.button 0).labelsize (f.button i).label).2 ≤ 2 ^ 24) :
    (∀ i, 0 ≤ (layout env f).button_w.get i ∧ (layout env f).button_w.get i < 2 ^ 25) ∧
    (25 ≤ (layout env f).max_h ∧ (layout env f).max_h < 2 ^ 25) ∧
    (0 ≤ (layout env f).message_h ∧ (layout env f).message_h < 2 ^ 25) ∧
    (0 ≤ (layout env f).text_height ∧ (layout env f).text_height < 2 ^ 25) ∧
    (0 ≤ (layout env f).max_w ∧ (layout env f).max_w < 2 ^ 27) ∧
    (0 ≤ (layout env f).message_w ∧ (layout env f).message_w < 2 ^ 27) ∧
    (0 ≤ (layout env f).w ∧ (layout env f).w < 2 ^ 27) ∧
    (0 ≤ (layout env f).h ∧ (layout env f).h < 2 ^ 27) := by
  obtain ⟨hmh, hth, hmw, hmsg, hw, hh⟩ := layout_scalars env f
  have hmax := layout_max_h env f
  have hmaxle : (layout env f).max_h ≤ 2 ^ 24 + 10 := by
    simp only [layout, foldl_three]
    apply measureButton_max_h_le _ _ _ _ _ _ (fun hv => by have := (hb 2 (by omega) hv).2.2; omega)
    apply measureButton_max_h_le _ _ _ _ _ _ (fun hv => by have := (hb 1 (by omega) hv).2.2; omega)
    apply measureButton_max_h_le _ _ _ _ _ _ (fun hv => by have := (hb 0 (by omega) hv).2.2; omega)
    norm_num
  have hp : ∀ i, i < 3 → 0 ≤ paddedWidth env f i ∧ paddedWidth env f i ≤ 2 ^ 24 + 50 := by
    intro i hi
    unfold paddedWidth
    split
    · rename_i hv
      have := hb i hi hv
      split <;> omega
    · norm_num
  have p0 := hp 0 (by omega)
  have p1 := hp 1 (by omega)
  have p2 := hp 2 (by omega)
  have e : (2 : Int) ^ 24 = 16777216 := by norm_num
  have e5 : (2 : Int) ^ 25 = 33554432 := by norm_num
  have e7 : (2 : Int) ^ 27 = 134217728 := by norm_num
  rw [e] at hm hmaxle p0 p1 p2
  rw [e5, e7]
  refine ⟨?_, ⟨hmax, by omega⟩, ?_, ?_, ?_, ?_, ?_, ?_⟩
  · intro i
    rw [layout_get]
    match i with
    | 0 => omega
    | 1 => omega
    | (n + 2) =>
      have : paddedWidth env f (n + 2) = paddedWidth env f 2 := by simp [paddedWidth, Form.button]
      omega
  · rw [hmh]; omega
  · rw [hth, hmh]; split_ifs <;> omega
  · rw [hmw]; omega
  · rw [hmsg, hmw]; omega
  · rw [hw, hmw]; omega
  · rw [hh, hth, hmh]; split_ifs <;> omega

/-- C1. A dialog function called while `avoidRecursion` is set returns its
blocked value (nothing, 0 or null) and leaves the whole presenter state as it
was. -/
theorem reentrant_call_blocked (env : Env) (s : State) (fmt : String)
    (ap : List (Option String)) (b0 b1 b2 defstr : Option String) (evs : List Event)
    (h : s.avoidRecursion ≠ 0) :
    fl_message env s fmt ap evs = some s ∧
    fl_alert env s fmt ap evs = some s ∧
    fl_ask env s fmt ap evs = some (0, s) ∧
    fl_choice env s fmt b0 b1 b2 ap evs = some (0, s) ∧
    fl_input env s fmt defstr ap evs = some (none, s) ∧
    fl_password env s fmt defstr ap evs = some (none, s) := by
  simp only [fl_message, fl_alert, fl_ask, fl_choice, fl_input, fl_password, if_pos h, and_self]

theorem reentrant_call_blocked_witness :
    activeState.avoidRecursion ≠ 0 ∧
    fl_message testEnv activeState "again" [] [Event.push 1] = some activeState ∧
    fl_alert testEnv activeState "again" [] [Event.push 1] = some activeState ∧
    fl_ask testEnv activeState "again" [] [Event.push 1] = some (0, activeState) ∧
    fl_choice testEnv activeState "again" (some "A") (some "B") none [] [Event.push 1]
      = some (0, activeState) ∧
    fl_input testEnv activeState "again" (some "text") [] [Event.push 1] = some (none, activeState) ∧
    fl_password testEnv activeState "again" (some "text") [] [Event.push 1]
      = some (none, activeState) :=
  ⟨by decide, reentrant_call_blocked testEnv activeState "again" [] (some "A") (some "B") none
    (some "text") [Event.push 1] (by decide)⟩

/-- C3, as amended. Running `resizeform` a second time leaves the window with
its size, the size range, the message box, the icon, the input field and
every button with a non-zero computed width exactly as they were after the
first run, and it leaves the whole form, hidden buttons included, as it was
when the window resize of the toolkit puts children back; the window size, the
size range and the rectangles of the message box, the icon, the input field
and of every button with a non-zero computed width are the same for two forms
with the same labels, fonts and visibilities. -/
theorem resizeform_idempotent (env : Env) (f g : Form) (h : f.layoutInputs = g.layoutInputs) :
    (resizeform env (resizeform env f)).message_form = (resizeform env f).message_form ∧
    (resizeform env (resizeform env f)).size_range = (resizeform env f).size_range ∧
    (resizeform env (resizeform env f)).message = (resizeform env f).message ∧
    (resizeform env (resizeform env f)).icon = (resizeform env f).icon ∧
    (resizeform env (resizeform env f)).input = (resizeform env f).input ∧
    (∀ i, (layout env f).button_w.get i ≠ 0 →
      (resizeform env (resizeform env f)).button i = (resizeform env f).button i) ∧
    (env.ResizeRestores → resizeform env (resizeform env f) = resizeform env f) ∧
    (resizeform env f).message_form.w = (resizeform env g).message_form.w ∧
    (resizeform env f).message_form.h = (resizeform env g).message_form.h ∧
    (resizeform env f).size_range = (resizeform env g).size_range ∧
    (resizeform env f).message.rect = (resizeform env g).message.rect ∧
    (resizeform env f).icon.rect = (resizeform env g).icon.rect ∧
    (resizeform env f).input.rect = (resizeform env g).input.rect ∧
    (∀ i, (layout env f).button_w.get i ≠ 0 →
      ((resizeform env f).button i).rect = ((resizeform env g).button i).rect) := by
  have hl := layout_congr env f g h
  have hp := paddedWidth_congr env f g h
  have hi := resizeform_layoutInputs env f
  have hl2 := layout_congr env _ _ hi
  have hp2 := paddedWidth_congr env _ _ hi
  obtain ⟨a1, a2, a3, a4, a5, -⟩ := resizeform_fixed env f
  obtain ⟨b0, b1, b2⟩ := resizeform_buttons env f
  obtain ⟨c1, c2, c3, c4, c5, -⟩ := resizeform_fixed env g
  obtain ⟨d0, d1, d2⟩ := resizeform_buttons env g
  obtain ⟨e1, e2, e3, e4, e5, -⟩ := resizeform_fixed env (resizeform env f)
  obtain ⟨k0, k1, k2⟩ := resizeform_buttons env (resizeform env f)
  rw [← hl] at c1 c2 c3 c5 d0 d1 d2
  simp only [← hp] at d0 d1 d2
  rw [hl2] at e1 e2 e3 e5 k0 k1 k2
  simp only [hp2] at k0 k1 k2
  refine ⟨?_, ?_, ?_, ?_, ?_, ?_, fun hr => resizeform_twice env hr f, ?_, ?_, ?_, ?_, ?_, ?_, ?_⟩
  · rw [e1, a1]; rfl
  · rw [e2, a2]
  · rw [e3, a3]; rfl
  · rw [e4, a4]; rfl
  · rw [e5, a5]; rfl
  · intro i hi
    rw [layout_get] at hi
    match i with
    | 0 => simp only [Form.button]; rw [k0, if_pos hi, b0, if_pos hi]; rfl
    | 1 => simp only [Form.button]; rw [k1, if_pos hi, b1, if_pos hi]; rfl
    | (n + 2) =>
      have hi2 : paddedWidth env f 2 ≠ 0 := by simpa [paddedWidth, Form.button] using hi
      simp only [Form.button]; rw [k2, if_pos hi2, b2, if_pos hi2]; rfl
  · rw [a1, c1]; rfl
  · rw [a1, c1]; rfl
  · rw [a2, c2]
  · rw [a3, c3]; rfl
  · rw [a4, c4]; rfl
  · rw [a5, c5]; rfl
  · intro i hi
    rw [layout_get] at hi
    match i with
    | 0 => simp only [Form.button]; rw [b0, d0, if_pos hi, if_pos hi]; rfl
    | 1 => simp only [Form.button]; rw [b1, d1, if_pos hi, if_pos hi]; rfl
    | (n + 2) =>
      have hi2 : paddedWidth env f 2 ≠ 0 := by simpa [paddedWidth, Form.button] using hi
      simp only [Form.button]; rw [b2, d2, if_pos hi2, if_pos hi2]; rfl

theorem resizeform_idempotent_witness :
    twoButtonForm.layoutInputs = twoButtonFormMoved.layoutInputs ∧
    (resizeform testEnv (resizeform testEnv twoButtonForm)).button 0
      = (resizeform testEnv twoButtonForm).button 0 ∧
    resizeform testEnv (resizeform testEnv twoButtonForm) = resizeform testEnv twoButtonForm ∧
    (resizeform testEnv twoButtonForm).button0.rect
      = (resizeform testEnv twoButtonFormMoved).button0.rect := by
  have h := resizeform_idempotent testEnv twoButtonForm twoButtonFormMoved (by decide)
  exact ⟨by decide, h.2.2.2.2.2.1 0 (by decide), h.2.2.2.2.2.2.1 testEnv_restores,
    h.2.2.2.2.2.2.2.2.2.2.2.2.2 0 (by decide)⟩

/-- C3, counterexample. Two forms with the same labels, fonts and
visibilities, both with a 410 x 103 window, that differ in the place of the
hidden button 2 have different rectangles of button 2 after `resizeform`,
with the window resize of FLTK: `resizeform` changes neither result when it
runs again, yet the resulting geometry depends on the geometry before the
call. -/
theorem resizeform_geometry_depends_on_prior :
    twoButtonForm.layoutInputs = twoButtonFormMoved.layoutInputs ∧
    twoButtonForm.button2.visible = false ∧
    twoButtonForm.button2.rect = (110, 70, 90, 23) ∧
    twoButtonFormMoved.button2.rect = (0, 0, 90, 23) ∧
    (resizeform testEnv twoButtonForm).button2.rect = (120, 53, 90, 23) ∧
    (resizeform testEnv twoButtonFormMoved).button2.rect = (0, 0, 96, 15) ∧
    (resizeform testEnv twoButtonForm).button2.rect
      ≠ (resizeform testEnv twoButtonFormMoved).button2.rect ∧
    resizeform testEnv (resizeform testEnv twoButtonForm) = resizeform testEnv twoButtonForm ∧
    resizeform testEnv (resizeform testEnv twoButtonFormMoved)
      = resizeform testEnv twoButtonFormMoved :=
  ⟨by decide, by decide, by decide, by decide, by decide, by decide, by decide,
    resizeform_twice testEnv testEnv_restores _, resizeform_twice testEnv testEnv_restores _⟩

/-- C10, as amended. The message block of `resizeform` is the measured box
padded by 10 in each dimension and then raised to the minimum 340 x 30: its
height is `max (mh + 10) 30`, and its width is `max (mw + 10) 340` whenever the
button row is not wider than the message row with the icon. -/
theorem resizeform_message_block (env : Env) (f : Form) :
    (layout env f).message_h =
      max ((env.fl_measure f.message.labelfont f.message.labelsize f.message.label).2 + 10) 30 ∧
    (resizeform env f).message.h =
      max ((env.fl_measure f.message.labelfont f.message.labelsize f.message.label).2 + 10) 30 ∧
    ((layout env f).button_w.get 0 + (layout env f).button_w.get 1 + (layout env f).button_w.get 2
        - 10 ≤
        max ((env.fl_measure f.message.labelfont f.message.labelsize f.message.label).1 + 10) 340
          + 10 + 50 →
      (resizeform env f).message.w =
        max ((env.fl_measure f.message.labelfont f.message.labelsize f.message.label).1 + 10) 340) := by
  obtain ⟨hmh, -, hmw, hmsg, -, -⟩ := layout_scalars env f
  obtain ⟨-, -, rm, -⟩ := resizeform_fixed env f
  refine ⟨hmh, ?_, ?_⟩
  · rw [rm]; exact hmh
  · intro hle
    simp only [layout_get] at hle
    rw [rm]; simp only [Widget.resize]
    rw [hmsg, hmw]
    omega

theorem resizeform_message_block_witness :
    (layout testEnv shortMessageForm).message_h = 30 ∧
    (resizeform testEnv shortMessageForm).message.w = 340 := by
  have h := resizeform_message_block testEnv shortMessageForm
  exact ⟨h.1.trans (by decide), (h.2.2 (by decide)).trans (by decide)⟩

/-- C10, counterexample. For the message "hi", measured as 16 x 16, the
message block is 30 high, not `max 16 30 + 10 = 40`, and 340 wide, not
`max 16 340 + 10 = 350`, although the button row is narrower than the message
row. -/
theorem resizeform_message_block_not_clamp_then_pad :
    testEnv.fl_measure shortMessageForm.message.labelfont shortMessageForm.message.labelsize
      shortMessageForm.message.label = (16, 16) ∧
    (layout testEnv shortMessageForm).button_w.get 0 + (layout testEnv shortMessageForm).button_w.get 1
      + (layout testEnv shortMessageForm).button_w.get 2 - 10 ≤ 340 + 10 + 50 ∧
    (layout testEnv shortMessageForm).message_h = 30 ∧
    (layout testEnv shortMessageForm).message_h ≠ max 16 30 + 10 ∧
    (resizeform testEnv shortMessageForm).message.w = 340 ∧
    (resizeform testEnv shortMessageForm).message.w ≠ max 16 340 + 10 := by
  decide

theorem closed_closed (s : State) (r r2 : Int) (t t2 : String) :
    (s.closed r t).closed r2 t2 = s.closed r2 t2 := rfl

theorem waitLoop_hidden (s : State) (evs : List Event) (h : s.form.shown = false) :
    waitLoop s evs = some s := by
  cases evs <;> simp [waitLoop, h]

theorem waitLoop_cons (s : State) (e : Event) (es : List Event) (h : s.form.shown = true) :
    waitLoop s (e :: es) = waitLoop (Fl_wait s e) es := by
  simp [waitLoop, h]

theorem Fl_wait_ends (s : State) (e : Event) (he : e.ends s = true) :
    Fl_wait s e = s.closed (e.result s.ret_val) s.form.input_value := by
  cases e with
  | push b =>
    simp only [Event.ends, Bool.and_eq_true, decide_eq_true_eq] at he
    simp only [Fl_wait, he.1, he.2, and_self, if_true, button_cb, Event.result, State.closed]
    rfl
  | close => rfl
  | hide => rfl
  | edit x => simp [Event.ends] at he
  | other => simp [Event.ends] at he

theorem Fl_wait_quiet (s : State) (e : Event) (he : e.ends s = false) :
    Fl_wait s e = s.withText (textAfter s.form.input.visible s.form.input_value [e]) := by
  cases e with
  | push b =>
    simp only [Event.ends, Bool.and_eq_false_iff, decide_eq_false_iff_not] at he
    have : ¬ (b < 3 ∧ (s.form.button b).visible = true) := by
      rintro ⟨h1, h2⟩
      rcases he with h | h
      · exact h h1
      · rw [h2] at h; exact Bool.noConfusion h
    simp only [Fl_wait, this, if_false, textAfter, List.foldl]
    rfl
  | close => simp [Event.ends] at he
  | hide => simp [Event.ends] at he
  | edit x =>
    simp only [Fl_wait, textAfter, List.foldl, State.withText]
    split_ifs <;> rfl
  | other => rfl

theorem ends_withText (s : State) (t : String) (e : Event) :
    e.ends (s.withText t) = e.ends s := by
  cases e <;> rfl

theorem waitLoop_ends (pre : List Event) (e : Event) (post : List Event) (s : State)
    (hs : s.form.shown = true) (hpre : ∀ x ∈ pre, x.ends s = false) (he : e.ends s = true) :
    waitLoop s (pre ++ e :: post) =
      some (s.closed (e.result s.ret_val) (textAfter s.form.input.visible s.form.input_value pre)) := by
  induction pre generalizing s with
  | nil =>
    rw [List.nil_append, waitLoop_cons s e post hs, Fl_wait_ends s e he]
    exact waitLoop_hidden _ _ rfl
  | cons x pre ih =>
    have hx := hpre x (List.mem_cons_self _ _)
    rw [List.cons_append, waitLoop_cons s x _ hs, Fl_wait_quiet s x hx]
    rw [ih (s.withText (textAfter s.form.input.visible s.form.input_value [x])) hs
      (fun y hy => by rw [ends_withText]; exact hpre y (List.mem_cons_of_mem _ hy))
      (by rw [ends_withText]; exact he)]
    rfl

theorem waitLoop_never (evs : List Event) (s : State)
    (hs : s.form.shown = true) (h : ∀ x ∈ evs, x.ends s = false) :
    waitLoop s evs = none := by
  induction evs generalizing s with
  | nil => simp [waitLoop, hs]
  | cons x evs ih =>
    have hx := h x (List.mem_cons_self _ _)
    rw [waitLoop_cons s x _ hs, Fl_wait_quiet s x hx]
    exact ih (s.withText (textAfter s.form.input.visible s.form.input_value [x])) hs
      (fun y hy => by rw [ends_withText]; exact h y (List.mem_cons_of_mem _ hy))
/-! ## Each step of `innards` as one update of the form -/

@[simp] theorem Form.size_icon_label (env : Env) (f : Form) (W H : Int) :
    (f.size env W H).icon.label = f.icon.label := rfl

@[simp] theorem Form.size_input_visible (env : Env) (f : Form) (W H : Int) :
    (f.size env W H).input.visible = f.input.visible := rfl

@[simp] theorem Form.size_input_value (env : Env) (f : Form) (W H : Int) :
    (f.size env W H).input_value = f.input_value := rfl

@[simp] theorem Form.size_input_type (env : Env) (f : Form) (W H : Int) :
    (f.size env W H).input_type = f.input_type := rfl

@[simp] theorem Form.size_shown (env : Env) (f : Form) (W H : Int) :
    (f.size env W H).shown = f.shown := rfl

@[simp] theorem Form.size_placement (env : Env) (f : Form) (W H : Int) :
    (f.size env W H).placement = f.placement := rfl

theorem setMessage_eq (env : Env) (s : State) (f : Form) (fmt : String)
    (ap : List (Option String)) :
    setMessage env s f fmt ap =
      { f.size env 410 103 with
        message := { (f.size env 410 103).message with
          label := messageText env fmt ap,
          labelfont := s.fl_message_font_,
          labelsize := if s.fl_message_size_ = -1 then env.FL_NORMAL_SIZE else s.fl_message_size_ } } := by
  unfold setMessage
  split_ifs <;> rfl

theorem setButtons_eq (f : Form) (b0 b1 b2 : Option String) :
    setButtons f b0 b1 b2 =
      { f with
        button0 := { f.button0 with
          visible := b0.isSome, label := if b0.isSome then b0 else f.button0.label },
        button1 := { f.button1.position (if b0.isSome then 210 else 310) 70 with
          visible := b1.isSome, label := if b1.isSome then b1 else f.button1.label },
        button2 := { f.button2 with
          visible := b2.isSome, label := if b2.isSome then b2 else f.button2.label } } := by
  cases b0 <;> cases b1 <;> cases b2 <;> rfl

theorem setIcon_eq (s : State) (f : Form) :
    setIcon s f =
      { f with icon := { f.icon with
          label := if f.icon.label = none then some s.iconlabel else f.icon.label } } := by
  unfold setIcon
  split_ifs <;> rfl

theorem setFocus_eq (f : Form) :
    setFocus f =
      { f with focus := if f.button1.visible ∧ ¬ f.input.visible then Focus.button1 else f.focus } := by
  unfold setFocus
  split_ifs <;> rfl

theorem setShortcut_eq (env : Env) (f : Form) (b0 : Option String) :
    setShortcut env f b0 =
      { f with shortcut0 := match b0 with
          | some l => if env.label_shortcut l ≠ 0 then 0 else env.FL_Escape
          | none => env.FL_Escape } := by
  unfold setShortcut
  cases b0 with
  | none => rfl
  | some l => simp only []; split_ifs <;> rfl

theorem setTitle_eq (s : State) (f : Form) :
    setTitle s f =
      { f with message_form := { f.message_form with
          label := if f.message_form.label = none ∧ s.message_title_default ≠ none
            then s.message_title_default else f.message_form.label } } := by
  unfold setTitle
  split_ifs <;> rfl

theorem placeForm_form (s : State) (f : Form) :
    (placeForm s f).2 =
      { f with
        message_form :=
          if s.form_position ≠ 0 then
            f.message_form.position
              (if s.form_position = 2 then s.form_x - (f.message_form.w).tdiv 2 else s.form_x)
              (if s.form_position = 2 then s.form_y - (f.message_form.h).tdiv 2 else s.form_y)
          else f.message_form,
        placement :=
          if s.form_position ≠ 0 then
            Placement.position
              (if s.form_position = 2 then s.form_x - (f.message_form.w).tdiv 2 else s.form_x)
              (if s.form_position = 2 then s.form_y - (f.message_form.h).tdiv 2 else s.form_y)
          else if s.enableHotspot ≠ 0 then Placement.hotspot else Placement.free } := by
  unfold placeForm
  split_ifs <;> rfl

theorem placeForm_state (s : State) (f : Form) :
    (placeForm s f).1 =
      { s with
        form_x := if s.form_position ≠ 0 then 0 else s.form_x,
        form_y := if s.form_position ≠ 0 then 0 else s.form_y,
        form_position := 0 } := by
  unfold placeForm
  by_cases h : s.form_position = 0
  · simp only [h, ne_eq, not_true_eq_false, if_false]
    split_ifs <;> (cases s; simp_all)
  · simp only [ne_eq, h, not_false_eq_true, if_true]
    split_ifs <;> rfl

theorem showForm_eq (s : State) (f : Form) :
    showForm s f = { s with grab := none, form := f.show, screen := f.show :: s.screen } := by
  unfold showForm
  by_cases h : s.grab = none
  · simp only [h, ne_eq, not_true_eq_false, if_false]
  · simp only [ne_eq, h, not_false_eq_true, if_true]

theorem resizeform_eq (env : Env) (f : Form) :
    resizeform env f =
      { f with
        message_form := f.message_form.size (layout env f).w (layout env f).h,
        size_range := some ((layout env f).w, (layout env f).h, (layout env f).w, (layout env f).h),
        message := f.message.resize 70 10 (layout env f).message_w (layout env f).message_h,
        icon := { f.icon.resize 10 10 50 50 with labelsize := 40 },
        input := f.input.resize 70 (10 + (layout env f).message_h) (layout env f).message_w 25,
        button0 :=
          if paddedWidth env f 0 ≠ 0 then
            f.button0.resize ((layout env f).w - paddedWidth env f 0)
              ((layout env f).h - 10 - (layout env f).max_h) (paddedWidth env f 0 - 10)
              (layout env f).max_h
          else (windowSized env f).button0,
        button1 :=
          if paddedWidth env f 1 ≠ 0 then
            f.button1.resize ((layout env f).w - paddedWidth env f 0 - paddedWidth env f 1)
              ((layout env f).h - 10 - (layout env f).max_h) (paddedWidth env f 1 - 10)
              (layout env f).max_h
          else (windowSized env f).button1,
        button2 :=
          if paddedWidth env f 2 ≠ 0 then
            f.button2.resize
              ((layout env f).w - paddedWidth env f 0 - paddedWidth env f 1 - paddedWidth env f 2)
              ((layout env f).h - 10 - (layout env f).max_h) (paddedWidth env f 2 - 10)
              (layout env f).max_h
          else (windowSized env f).button2,
        resizable := (windowSized env f).resizable,
        sizes := none } := by
  obtain ⟨a1, a2, a3, a4, a5, a6, a7, a8, a9, a10, a11, a12, a13⟩ := resizeform_fixed env f
  obtain ⟨b0, b1, b2⟩ := resizeform_buttons env f
  apply Form.ext <;> assumption

/-- The form on which `innards` calls `resizeform`. -/
theorem innards_show_eq (env : Env) (s : State) (fmt : String) (ap : List (Option String))
    (b0 b1 b2 : Option String) :
    innards_show env s fmt ap b0 b1 b2 =
      (showForm (placeForm (makeform env { s with pushed := false, avoidRecursion := 1 })
          (setFocus (resizeform env (setIcon s (setButtons (setMessage env s
            (makeform env s).form fmt ap) b0 b1 b2)))) ).1
        (setTitle s (setShortcut env (placeForm s
          (setFocus (resizeform env (setIcon s (setButtons (setMessage env s
            (makeform env s).form fmt ap) b0 b1 b2))))).2 b0)),
       { prev_icon_label := (makeform env s).form.icon.label, g := s.grab }) := by
  unfold innards_show
  by_cases h : s.made <;> simp [makeform, h, setMessage_eq, setButtons_eq, setIcon_eq, setFocus_eq, setTitle_eq, placeForm_form, placeForm_state, setShortcut_eq]
theorem resizeform_button_visible (env : Env) (f : Form) :
    (resizeform env f).button0.visible = f.button0.visible ∧
    (resizeform env f).button1.visible = f.button1.visible ∧
    (resizeform env f).button2.visible = f.button2.visible :=
  ⟨resizeform_visible env f 0, resizeform_visible env f 1, resizeform_visible env f 2⟩

theorem makeform_made (env : Env) (s : State) : (makeform env s).made = true := by
  unfold makeform
  by_cases h : s.made <;> simp [h]

/-- The steps of `innards` after `resizeform` keep the buttons and the input
field and show the window. -/
theorem show_after_resize (env : Env) (s s1 : State) (g : Form) (b0 : Option String) :
    (showForm s1 (setTitle s (setShortcut env (placeForm s (setFocus g)).2 b0))).form.shown = true ∧
    (showForm s1 (setTitle s (setShortcut env (placeForm s (setFocus g)).2 b0))).form.button0
      = g.button0 ∧
    (showForm s1 (setTitle s (setShortcut env (placeForm s (setFocus g)).2 b0))).form.button1
      = g.button1 ∧
    (showForm s1 (setTitle s (setShortcut env (placeForm s (setFocus g)).2 b0))).form.button2
      = g.button2 ∧
    (showForm s1 (setTitle s (setShortcut env (placeForm s (setFocus g)).2 b0))).form.input
      = g.input ∧
    (showForm s1 (setTitle s (setShortcut env (placeForm s (setFocus g)).2 b0))).form.input_value
      = g.input_value ∧
    (showForm s1 (setTitle s (setShortcut env (placeForm s (setFocus g)).2 b0))).form.icon
      = g.icon ∧
    (showForm s1 (setTitle s (setShortcut env (placeForm s (setFocus g)).2 b0))).form.message
      = g.message := by
  simp only [showForm_eq, Form.show, setTitle_eq, setShortcut_eq, placeForm_form, setFocus_eq,
    and_self]

theorem innards_show_loop (env : Env) (s : State) (fmt : String) (ap : List (Option String))
    (b0 b1 b2 : Option String) :
    (innards_show env s fmt ap b0 b1 b2).1.form.shown = true ∧
    (innards_show env s fmt ap b0 b1 b2).1.form.button0.visible = b0.isSome ∧
    (innards_show env s fmt ap b0 b1 b2).1.form.button1.visible = b1.isSome ∧
    (innards_show env s fmt ap b0 b1 b2).1.form.button2.visible = b2.isSome ∧
    (innards_show env s fmt ap b0 b1 b2).1.ret_val = s.ret_val ∧
    (innards_show env s fmt ap b0 b1 b2).1.form.input.visible = (makeform env s).form.input.visible ∧
    (innards_show env s fmt ap b0 b1 b2).1.form.input_value = (makeform env s).form.input_value := by
  rw [innards_show_eq]
  obtain ⟨h1, h2, h3, h4, h5, h6, -⟩ := show_after_resize env s
    (placeForm (makeform env { s with pushed := false, avoidRecursion := 1 })
      (setFocus (resizeform env (beforeResize env s fmt ap b0 b1 b2)))).1
    (resizeform env (beforeResize env s fmt ap b0 b1 b2)) b0
  obtain ⟨v0, v1, v2⟩ := resizeform_button_visible env (beforeResize env s fmt ap b0 b1 b2)
  obtain ⟨-, -, -, -, ri, -, -, rv, -⟩ := resizeform_fixed env (beforeResize env s fmt ap b0 b1 b2)
  have hr : (makeform env { s with pushed := false, avoidRecursion := 1 }).ret_val = s.ret_val := by
    unfold makeform; split_ifs <;> rfl
  simp only [beforeResize] at h1 h2 h3 h4 h5 h6 v0 v1 v2 ri rv
  refine ⟨h1, ?_, ?_, ?_, ?_, ?_, ?_⟩
  · rw [h2, v0, setIcon_eq, setButtons_eq]
  · rw [h3, v1, setIcon_eq, setButtons_eq]
  · rw [h4, v2, setIcon_eq, setButtons_eq]
  · rw [showForm_eq, placeForm_state]; exact hr
  · rw [h5, ri, setIcon_eq, setButtons_eq, setMessage_eq]; rfl
  · rw [h6, rv, setIcon_eq, setButtons_eq, setMessage_eq]; rfl

theorem innards_show_ends (env : Env) (s : State) (fmt : String) (ap : List (Option String))
    (b0 b1 b2 : Option String) (e : Event) :
    e.ends (innards_show env s fmt ap b0 b1 b2).1 = e.endsFor b0 b1 b2 := by
  obtain ⟨-, v0, v1, v2, -⟩ := innards_show_loop env s fmt ap b0 b1 b2
  cases e with
  | push b =>
    match b with
    | 0 => simp [Event.ends, Event.endsFor, Form.button, v0]
    | 1 => simp [Event.ends, Event.endsFor, Form.button, v1]
    | 2 => simp [Event.ends, Event.endsFor, Form.button, v2]
    | (n + 3) => simp [Event.ends, Event.endsFor]
  | close => rfl
  | hide => rfl
  | edit x => rfl
  | other => rfl

/-- The run of `innards` when the events `pre` leave the dialog open and the
event `e` ends it. -/
theorem innards_ends (env : Env) (s : State) (fmt : String) (ap : List (Option String))
    (b0 b1 b2 : Option String) (pre : List Event) (e : Event) (post : List Event)
    (hpre : ∀ x ∈ pre, x.endsFor b0 b1 b2 = false) (he : e.endsFor b0 b1 b2 = true) :
    innards env s fmt ap b0 b1 b2 (pre ++ e :: post) =
      some (innards_done
        ((innards_show env s fmt ap b0 b1 b2).1.closed (e.result s.ret_val)
          (textAfter (makeform env s).form.input.visible (makeform env s).form.input_value pre))
        (innards_show env s fmt ap b0 b1 b2).2) := by
  obtain ⟨hs, -, -, -, hr, hv, ht⟩ := innards_show_loop env s fmt ap b0 b1 b2
  unfold innards
  simp only []
  rw [waitLoop_ends pre e post _ hs (fun x hx => by rw [innards_show_ends]; exact hpre x hx)
    (by rw [innards_show_ends]; exact he), hr, hv, ht]

/-- The run of `innards` never returns when no event ends the dialog. -/
theorem innards_never (env : Env) (s : State) (fmt : String) (ap : List (Option String))
    (b0 b1 b2 : Option String) (evs : List Event)
    (h : ∀ x ∈ evs, x.endsFor b0 b1 b2 = false) :
    innards env s fmt ap b0 b1 b2 evs = none := by
  obtain ⟨hs, -⟩ := innards_show_loop env s fmt ap b0 b1 b2
  unfold innards
  simp only []
  rw [waitLoop_never evs _ hs (fun x hx => by rw [innards_show_ends]; exact h x hx)]

theorem innards_done_eq (s : State) (sv : Saved) :
    innards_done s sv =
      (s.ret_val,
       { s with
         grab := if sv.g ≠ none then sv.g else s.grab,
         form := { s.form with
           icon := { s.form.icon with label := sv.prev_icon_label },
           message_form := { s.form.message_form with label := none } },
         avoidRecursion := 0 }) := by
  unfold innards_done
  split_ifs <;> rfl

/-- The window after the steps of `innards` that follow `resizeform`. -/
theorem show_after_resize_window (env : Env) (s s1 : State) (g : Form) (b0 : Option String) :
    (showForm s1 (setTitle s (setShortcut env (placeForm s (setFocus g)).2 b0))).form.message_form =
      { (if s.form_position ≠ 0 then
            g.message_form.position
              (if s.form_position = 2 then s.form_x - (g.message_form.w).tdiv 2 else s.form_x)
              (if s.form_position = 2 then s.form_y - (g.message_form.h).tdiv 2 else s.form_y)
          else g.message_form) with
        label := if g.message_form.label = none ∧ s.message_title_default ≠ none
          then s.message_title_default else g.message_form.label,
        visible := true } ∧
    (showForm s1 (setTitle s (setShortcut env (placeForm s (setFocus g)).2 b0))).form.placement =
      (if s.form_position ≠ 0 then
        Placement.position
          (if s.form_position = 2 then s.form_x - (g.message_form.w).tdiv 2 else s.form_x)
          (if s.form_position = 2 then s.form_y - (g.message_form.h).tdiv 2 else s.form_y)
       else if s.enableHotspot ≠ 0 then Placement.hotspot else Placement.free) := by
  simp only [showForm_eq, Form.show, setTitle_eq, setShortcut_eq, placeForm_form, setFocus_eq,
    Widget.position, Widget.resize]
  constructor
  · split_ifs <;> rfl
  · trivial

theorem makeform_title (env : Env) (s : State) :
    (makeform env s).form.message_form.label = s.title := by
  unfold makeform State.title
  split_ifs <;> rfl

theorem makeform_keeps (env : Env) (s : State) :
    (makeform env s).message_title_default = s.message_title_default ∧
    (makeform env s).enableHotspot = s.enableHotspot ∧
    (makeform env s).form_position = s.form_position ∧
    (makeform env s).form_x = s.form_x ∧ (makeform env s).form_y = s.form_y ∧
    (makeform env s).fl_no = s.fl_no ∧ (makeform env s).fl_yes = s.fl_yes ∧
    (makeform env s).fl_ok = s.fl_ok ∧ (makeform env s).fl_cancel = s.fl_cancel ∧
    (makeform env s).fl_close = s.fl_close ∧ (makeform env s).screen = s.screen ∧
    (makeform env s).ret_val = s.ret_val ∧ (makeform env s).iconlabel = s.iconlabel ∧
    (makeform env s).grab = s.grab ∧ (makeform env s).avoidRecursion = s.avoidRecursion := by
  unfold makeform
  split_ifs <;> simp

theorem makeform_update (env : Env) (s : State) :
    makeform env { s with pushed := false, avoidRecursion := 1 } =
      { makeform env s with pushed := false, avoidRecursion := 1 } := by
  unfold makeform
  split_ifs <;> rfl

/-- The state in which the wait loop of `innards` starts. -/
theorem innards_show_state (env : Env) (s : State) (fmt : String) (ap : List (Option String))
    (b0 b1 b2 : Option String) :
    (innards_show env s fmt ap b0 b1 b2).1 =
      { makeform env s with
        pushed := false, avoidRecursion := 1,
        form_x := if s.form_position ≠ 0 then 0 else s.form_x,
        form_y := if s.form_position ≠ 0 then 0 else s.form_y,
        form_position := 0, grab := none,
        form := shownForm env s fmt ap b0 b1 b2,
        screen := shownForm env s fmt ap b0 b1 b2 :: s.screen } := by
  obtain ⟨-, -, k3, k4, k5, -, -, -, -, -, k11, -⟩ := makeform_keeps env s
  unfold shownForm
  rw [innards_show_eq]
  simp only [showForm_eq, placeForm_state, makeform_update, k3, k4, k5, k11]

theorem innards_show_saved (env : Env) (s : State) (fmt : String) (ap : List (Option String))
    (b0 b1 b2 : Option String) :
    (innards_show env s fmt ap b0 b1 b2).2 =
      { prev_icon_label := (makeform env s).form.icon.label, g := s.grab } := by
  rw [innards_show_eq]

/-- The window of the dialog that `innards` shows. -/
theorem shownForm_window (env : Env) (s : State) (fmt : String) (ap : List (Option String))
    (b0 b1 b2 : Option String) :
    (shownForm env s fmt ap b0 b1 b2).message_form.label =
      (if s.title = none ∧ s.message_title_default ≠ none then s.message_title_default
       else s.title) ∧
    (shownForm env s fmt ap b0 b1 b2).placement =
      (if s.form_position ≠ 0 then
        Placement.position
          (if s.form_position = 2
            then s.form_x - ((shownForm env s fmt ap b0 b1 b2).message_form.w).tdiv 2 else s.form_x)
          (if s.form_position = 2
            then s.form_y - ((shownForm env s fmt ap b0 b1 b2).message_form.h).tdiv 2 else s.form_y)
       else if s.enableHotspot ≠ 0 then Placement.hotspot else Placement.free) ∧
    (s.form_position ≠ 0 →
      (shownForm env s fmt ap b0 b1 b2).message_form.x =
        (if s.form_position = 2
          then s.form_x - ((shownForm env s fmt ap b0 b1 b2).message_form.w).tdiv 2 else s.form_x) ∧
      (shownForm env s fmt ap b0 b1 b2).message_form.y =
        (if s.form_position = 2
          then s.form_y - ((shownForm env s fmt ap b0 b1 b2).message_form.h).tdiv 2 else s.form_y)) ∧
    (shownForm env s fmt ap b0 b1 b2).message_form.w
      = (layout env (beforeResize env s fmt ap b0 b1 b2)).w ∧
    (shownForm env s fmt ap b0 b1 b2).message_form.h
      = (layout env (beforeResize env s fmt ap b0 b1 b2)).h := by
  obtain ⟨w1, w2⟩ := show_after_resize_window env s
    (placeForm (makeform env { s with pushed := false, avoidRecursion := 1 })
      (setFocus (resizeform env (beforeResize env s fmt ap b0 b1 b2)))).1
    (resizeform env (beforeResize env s fmt ap b0 b1 b2)) b0
  obtain ⟨r1, -⟩ := resizeform_fixed env (beforeResize env s fmt ap b0 b1 b2)
  have hl : (beforeResize env s fmt ap b0 b1 b2).message_form.label = s.title := by
    rw [beforeResize, setIcon_eq, setButtons_eq, setMessage_eq]
    exact makeform_title env s
  have hf : shownForm env s fmt ap b0 b1 b2 =
      (showForm (placeForm (makeform env { s with pushed := false, avoidRecursion := 1 })
        (setFocus (resizeform env (beforeResize env s fmt ap b0 b1 b2)))).1
        (setTitle s (setShortcut env (placeForm s
          (setFocus (resizeform env (beforeResize env s fmt ap b0 b1 b2)))).2 b0))).form := by
    unfold shownForm
    rw [innards_show_eq]
    rfl
  rw [hf, w1, w2, r1]
  simp only [Widget.size, Widget.resize, Widget.position, hl]
  refine ⟨?_, ?_, ?_, ?_, ?_⟩ <;> first
    | trivial
    | (intro h; simp only [h, ne_eq, not_false_eq_true, if_true, and_self])
    | (split_ifs <;> rfl)

/-- The run of `innards` when the events `pre` leave the dialog open and the
event `e` ends it, with the state in which it returns. -/
theorem innards_returns (env : Env) (s : State) (fmt : String) (ap : List (Option String))
    (b0 b1 b2 : Option String) (pre : List Event) (e : Event) (post : List Event)
    (hpre : ∀ x ∈ pre, x.endsFor b0 b1 b2 = false) (he : e.endsFor b0 b1 b2 = true) :
    innards env s fmt ap b0 b1 b2 (pre ++ e :: post) =
      some (e.result s.ret_val,
        afterDialog env s (shownForm env s fmt ap b0 b1 b2) (e.result s.ret_val)
          (textAfter (makeform env s).form.input.visible (makeform env s).form.input_value pre)) := by
  obtain ⟨-, -, -, -, -, -, -, -, -, -, -, -, -, k14, -⟩ := makeform_keeps env s
  rw [innards_ends env s fmt ap b0 b1 b2 pre e post hpre he, innards_done_eq, innards_show_state,
    innards_show_saved]
  simp only [State.closed, afterDialog, Form.hide, Option.some.injEq, Prod.mk.injEq, true_and]
  by_cases hg : s.grab = none
  · simp only [hg, ne_eq, not_true_eq_false, if_false]
    rw [← hg, ← k14]
  · simp only [ne_eq, hg, not_false_eq_true, if_true]
    rw [← k14]

theorem afterDialog_presented (env : Env) (s : State) (fmt : String) (ap : List (Option String))
    (b0 b1 b2 : Option String) (r : Int) (t : String) :
    Presented s (shownForm env s fmt ap b0 b1 b2)
      (afterDialog env s (shownForm env s fmt ap b0 b1 b2) r t) := by
  obtain ⟨k1, k2, k3, k4, k5, k6, k7, k8, k9, k10, k11, -⟩ := makeform_keeps env s
  obtain ⟨w1, w2, w3, -⟩ := shownForm_window env s fmt ap b0 b1 b2
  have hm := makeform_made env s
  unfold Presented
  refine ⟨rfl, w1, w2, w3, hm, rfl, rfl, ?_, k1, k2, k6, k7, k8, k9, k10⟩
  simp only [State.title, afterDialog, hm, if_true]
theorem endsFor_push (b0 b1 b2 : Option String) (i : Nat) :
    (Event.push i).endsFor b0 b1 b2 = (slotLabel b0 b1 b2 i).isSome := by
  match i with
  | 0 => rfl
  | 1 => rfl
  | 2 => rfl
  | (n + 3) => rfl

/-- C4. A call of `fl_choice` that is not blocked returns `i` when the event
that ends the dialog is the activation of button `i`, for every slot `i`
whose label is not null and whatever `ret_val` was before; the events before
it (`pre`) are any that leave the dialog open. -/
theorem fl_choice_returns_slot (env : Env) (s : State) (fmt : String)
    (b0 b1 b2 : Option String) (ap : List (Option String)) (pre post : List Event) (i : Nat)
    (hs : s.avoidRecursion = 0) (hb : slotLabel b0 b1 b2 i ≠ none)
    (hpre : ∀ x ∈ pre, x.endsFor b0 b1 b2 = false) :
    (fl_choice env s fmt b0 b1 b2 ap (pre ++ Event.push i :: post)).map Prod.fst = some (i : Int) := by
  have he : (Event.push i).endsFor b0 b1 b2 = true := by
    rw [endsFor_push]
    cases h : slotLabel b0 b1 b2 i with
    | none => exact absurd h hb
    | some l => rfl
  unfold fl_choice
  rw [if_neg (by simp [hs]), innards_ends env s fmt ap b0 b1 b2 pre (Event.push i) post hpre he,
    innards_done_eq]
  rfl

theorem fl_choice_returns_slot_witness :
    (fl_choice testEnv { State.init testEnv with ret_val := 2 } "msg" (some "A") (some "B")
      (some "C") [] ([Event.other, Event.push 5] ++ Event.push 1 :: [Event.push 2])).map Prod.fst
      = some 1 :=
  fl_choice_returns_slot testEnv { State.init testEnv with ret_val := 2 } "msg" (some "A")
    (some "B") (some "C") [] [Event.other, Event.push 5] [Event.push 2] 1 (by decide)
    (by decide) (by decide)
theorem textAfter_unedited (visible : Bool) (t0 : String) (pre : List Event)
    (h : ∀ x, Event.edit x ∉ pre) : textAfter visible t0 pre = t0 := by
  unfold textAfter
  induction pre with
  | nil => rfl
  | cons y pre ih =>
    have hy : ∀ x, y ≠ Event.edit x := fun x hx => h x (hx ▸ List.mem_cons_self _ _)
    have ih2 := ih (fun x hx => h x (List.mem_cons_of_mem _ hx))
    cases y with
    | edit x => exact absurd rfl (hy x)
    | push b => exact ih2
    | close => exact ih2
    | hide => exact ih2
    | other => exact ih2

theorem makeform_of_made (env : Env) (s : State) (h : s.made = true) : makeform env s = s := by
  unfold makeform
  rw [if_pos h]

theorem input_innards_eq (env : Env) (s : State) (fmt : String) (ap : List (Option String))
    (defstr : Option String) (type : Int) (evs : List Event) :
    input_innards env s fmt ap defstr type evs =
      match innards env (inputState env s defstr type) fmt ap
          (some (inputState env s defstr type).fl_cancel)
          (some (inputState env s defstr type).fl_ok) none evs with
      | none => none
      | some r =>
        some (if r.1 ≠ 0 then some r.2.form.input_value else none,
          { r.2 with form := { r.2.form with
              input := { r.2.form.input with visible := false },
              message := r.2.form.message.position 60 25 } }) := rfl

theorem inputState_fields (env : Env) (s : State) (defstr : Option String) (type : Int) :
    (inputState env s defstr type).made = true ∧
    (inputState env s defstr type).fl_cancel = s.fl_cancel ∧
    (inputState env s defstr type).fl_ok = s.fl_ok ∧
    (inputState env s defstr type).ret_val = s.ret_val ∧
    (inputState env s defstr type).form.input.visible = true ∧
    (inputState env s defstr type).form.input_value = defstr.getD "" := by
  refine ⟨makeform_made env s, ?_, ?_, ?_, rfl, rfl⟩ <;>
    (unfold inputState makeform; split_ifs <;> rfl)

/-- The run of `input_innards` when the events `pre` leave the dialog open
and the event `e` ends it: the result is the text of the field when `ret_val`
ends up non-zero and null otherwise, and the field is hidden again. -/
theorem input_innards_ends (env : Env) (s : State) (fmt : String) (ap : List (Option String))
    (defstr : Option String) (type : Int) (pre : List Event) (e : Event) (post : List Event)
    (hpre : ∀ x ∈ pre, x.endsFor (some s.fl_cancel) (some s.fl_ok) none = false)
    (he : e.endsFor (some s.fl_cancel) (some s.fl_ok) none = true) :
    ∃ s1, input_innards env s fmt ap defstr type (pre ++ e :: post) =
        some (if e.result s.ret_val ≠ 0 then some (textAfter true (defstr.getD "") pre) else none, s1) ∧
      s1.form.input.visible = false ∧ s1.form.input_value = textAfter true (defstr.getD "") pre := by
  obtain ⟨hm, hc, ho, hr, hv, ht⟩ := inputState_fields env s defstr type
  rw [input_innards_eq, hc, ho,
    innards_ends env _ fmt ap (some s.fl_cancel) (some s.fl_ok) none pre e post hpre he,
    makeform_of_made env _ hm, hr, hv, ht]
  simp only [innards_done_eq, State.closed, Form.hide]
  exact ⟨_, rfl, rfl, rfl⟩
theorem Presented_of_iconlabel (s : State) (F : Form) (s1 : State) (a b : String)
    (h : Presented { s with iconlabel := a } F s1) :
    Presented s F { s1 with iconlabel := b } := h

theorem inputState_keeps (env : Env) (s : State) (defstr : Option String) (type : Int) :
    (inputState env s defstr type).title = s.title ∧
    (inputState env s defstr type).message_title_default = s.message_title_default ∧
    (inputState env s defstr type).enableHotspot = s.enableHotspot ∧
    (inputState env s defstr type).form_position = s.form_position ∧
    (inputState env s defstr type).form_x = s.form_x ∧
    (inputState env s defstr type).form_y = s.form_y ∧
    (inputState env s defstr type).fl_no = s.fl_no ∧
    (inputState env s defstr type).fl_yes = s.fl_yes ∧
    (inputState env s defstr type).fl_ok = s.fl_ok ∧
    (inputState env s defstr type).fl_cancel = s.fl_cancel ∧
    (inputState env s defstr type).fl_close = s.fl_close ∧
    (inputState env s defstr type).screen = s.screen := by
  obtain ⟨k1, k2, k3, k4, k5, k6, k7, k8, k9, k10, k11, -⟩ := makeform_keeps env s
  refine ⟨?_, k1, k2, k3, k4, k5, k6, k7, k8, k9, k10, k11⟩
  simp only [State.title, inputState, makeform_made, if_true, Widget.size, Widget.resize]
  exact makeform_title env s

theorem Presented_of_inputState (env : Env) (s : State) (defstr : Option String) (type : Int)
    (F : Form) (s1 : State) (w : Widget) (m : Widget)
    (h : Presented (inputState env s defstr type) F s1) :
    Presented s F { s1 with form := { s1.form with input := w, message := m } } := by
  obtain ⟨k0, k1, k2, k3, k4, k5, k6, k7, k8, k9, k10, k11⟩ := inputState_keeps env s defstr type
  unfold Presented at h ⊢
  rw [k0, k1, k2, k3, k4, k5, k6, k7, k8, k9, k10, k11] at h
  exact h

theorem endedBy_eq (d : Dialog) (b0 b1 b2 : Option String)
    (h : d.slots = (b0.isSome, b1.isSome, b2.isSome)) (e : Event) :
    e.endsFor b0 b1 b2 = d.endedBy e := by
  cases e with
  | push b =>
    match b with
    | 0 => simp [Event.endsFor, Dialog.endedBy, h]
    | 1 => simp [Event.endsFor, Dialog.endedBy, h]
    | 2 => simp [Event.endsFor, Dialog.endedBy, h]
    | (n + 3) => rfl
  | close => rfl
  | hide => rfl
  | edit x => rfl
  | other => rfl

/-- Every dialog function that is not blocked displays a dialog and returns
when the events `pre` leave the dialog open and the event `e` ends it. -/
theorem Dialog.run_presented (env : Env) (s : State) (d : Dialog)
    (pre : List Event) (e : Event) (post : List Event)
    (hs : s.avoidRecursion = 0)
    (hpre : ∀ x ∈ pre, d.endedBy x = false) (he : d.endedBy e = true) :
    ∃ F s1, d.run env s (pre ++ e :: post) = some s1 ∧ Presented s F s1 := by
  have hn : ¬ s.avoidRecursion ≠ 0 := by simp [hs]
  cases d with
  | message fmt ap =>
    have hq := endedBy_eq (Dialog.message fmt ap) none (some s.fl_close) none rfl
    simp only [Dialog.run, fl_message, if_neg hn]
    rw [innards_returns env _ fmt ap none (some s.fl_close) none pre e post
      (fun x hx => by rw [hq]; exact hpre x hx) (by rw [hq]; exact he)]
    exact ⟨_, _, rfl, Presented_of_iconlabel s _ _ "i" "?"
      (afterDialog_presented env { s with iconlabel := "i" } fmt ap none (some s.fl_close) none _ _)⟩
  | alert fmt ap =>
    have hq := endedBy_eq (Dialog.alert fmt ap) none (some s.fl_close) none rfl
    simp only [Dialog.run, fl_alert, if_neg hn]
    rw [innards_returns env _ fmt ap none (some s.fl_close) none pre e post
      (fun x hx => by rw [hq]; exact hpre x hx) (by rw [hq]; exact he)]
    exact ⟨_, _, rfl, Presented_of_iconlabel s _ _ "!" "?"
      (afterDialog_presented env { s with iconlabel := "!" } fmt ap none (some s.fl_close) none _ _)⟩
  | ask fmt ap =>
    have hq := endedBy_eq (Dialog.ask fmt ap) (some s.fl_no) (some s.fl_yes) none rfl
    simp only [Dialog.run, fl_ask, if_neg hn]
    rw [innards_returns env _ fmt ap (some s.fl_no) (some s.fl_yes) none pre e post
      (fun x hx => by rw [hq]; exact hpre x hx) (by rw [hq]; exact he)]
    exact ⟨_, _, rfl, afterDialog_presented env s fmt ap (some s.fl_no) (some s.fl_yes) none _ _⟩
  | choice fmt b0 b1 b2 ap =>
    have hq := endedBy_eq (Dialog.choice fmt b0 b1 b2 ap) b0 b1 b2 rfl
    simp only [Dialog.run, fl_choice, if_neg hn]
    rw [innards_returns env _ fmt ap b0 b1 b2 pre e post
      (fun x hx => by rw [hq]; exact hpre x hx) (by rw [hq]; exact he)]
    exact ⟨_, _, rfl, afterDialog_presented env s fmt ap b0 b1 b2 _ _⟩
  | input fmt defstr ap =>
    have hq := endedBy_eq (Dialog.input fmt defstr ap) (some s.fl_cancel) (some s.fl_ok) none rfl
    obtain ⟨-, -, -, -, -, -, -, -, k9, k10, -⟩ := inputState_keeps env s defstr env.FL_NORMAL_INPUT
    simp only [Dialog.run, fl_input, if_neg hn, input_innards_eq, k9, k10]
    rw [innards_returns env _ fmt ap (some s.fl_cancel) (some s.fl_ok) none pre e post
      (fun x hx => by rw [hq]; exact hpre x hx) (by rw [hq]; exact he)]
    exact ⟨_, _, rfl, Presented_of_inputState env s defstr env.FL_NORMAL_INPUT _ _ _ _
      (afterDialog_presented env (inputState env s defstr env.FL_NORMAL_INPUT) fmt ap
        (some s.fl_cancel) (some s.fl_ok) none _ _)⟩
  | password fmt defstr ap =>
    have hq := endedBy_eq (Dialog.password fmt defstr ap) (some s.fl_cancel) (some s.fl_ok) none rfl
    obtain ⟨-, -, -, -, -, -, -, -, k9, k10, -⟩ := inputState_keeps env s defstr env.FL_SECRET_INPUT
    simp only [Dialog.run, fl_password, if_neg hn, input_innards_eq, k9, k10]
    rw [innards_returns env _ fmt ap (some s.fl_cancel) (some s.fl_ok) none pre e post
      (fun x hx => by rw [hq]; exact hpre x hx) (by rw [hq]; exact he)]
    exact ⟨_, _, rfl, Presented_of_inputState env s defstr env.FL_SECRET_INPUT _ _ _ _
      (afterDialog_presented env (inputState env s defstr env.FL_SECRET_INPUT) fmt ap
        (some s.fl_cancel) (some s.fl_ok) none _ _)⟩

theorem Dialog.run_ends (env : Env) (s : State) (d : Dialog) (evs : List Event)
    (hs : s.avoidRecursion = 0) (h : d.Ends evs) :
    ∃ F s1, d.run env s evs = some s1 ∧ Presented s F s1 := by
  obtain ⟨pre, e, post, rfl, hpre, he⟩ := h
  exact Dialog.run_presented env s d pre e post hs hpre he
theorem layoutInputs_icon (f : Form) (ic : Widget) :
    ({ f with icon := ic } : Form).layoutInputs = f.layoutInputs := rfl

theorem resizeform_iconLabel (env : Env) (f : Form) (l : Option String) :
    resizeform env { f with icon := { f.icon with label := l } } =
      { resizeform env f with icon := { (resizeform env f).icon with label := l } } := by
  have hl := layout_congr env { f with icon := { f.icon with label := l } } f rfl
  have hp := paddedWidth_congr env { f with icon := { f.icon with label := l } } f rfl
  rw [resizeform_eq, resizeform_eq]
  simp only [hl, hp]
  rfl

theorem makeform_form_iconlabel (env : Env) (s : State) (a : String) :
    (makeform env { s with iconlabel := a }).form = (makeform env s).form := by
  unfold makeform
  split_ifs <;> rfl

theorem setIcon_iconlabel (s : State) (a : String) (f : Form) :
    setIcon { s with iconlabel := a } f =
      { f with icon := { f.icon with
          label := if f.icon.label = none then some a else f.icon.label } } :=
  setIcon_eq _ f

theorem setTitle_iconlabel (s : State) (a : String) (f : Form) :
    setTitle { s with iconlabel := a } f = setTitle s f := rfl

theorem setMessage_iconlabel (env : Env) (s : State) (a : String) (f : Form) (fmt : String)
    (ap : List (Option String)) :
    setMessage env { s with iconlabel := a } f fmt ap = setMessage env s f fmt ap := rfl

theorem placeForm_iconlabel (s : State) (a : String) (f : Form) :
    (placeForm { s with iconlabel := a } f).2 = (placeForm s f).2 := by
  rw [placeForm_form, placeForm_form]

theorem innards_show_form_iconlabel (env : Env) (s : State) (a : String) (fmt : String)
    (ap : List (Option String)) (b0 b1 b2 : Option String) :
    (innards_show env { s with iconlabel := a } fmt ap b0 b1 b2).1.form =
      (showForm (placeForm (makeform env { s with pushed := false, avoidRecursion := 1 })
          (setFocus (resizeform env (setIcon s (setButtons (setMessage env s
            (makeform env s).form fmt ap) b0 b1 b2)))) ).1
        (setTitle s (setShortcut env (placeForm s
          (setFocus (resizeform env (setIcon { s with iconlabel := a } (setButtons (setMessage env s
            (makeform env s).form fmt ap) b0 b1 b2))))).2 b0))).form := by
  rw [innards_show_eq]
  simp only [makeform_form_iconlabel, showForm_eq, setTitle_iconlabel, setMessage_iconlabel,
    placeForm_iconlabel]

theorem resizeform_setIcon (env : Env) (s : State) (f : Form) :
    resizeform env (setIcon s f) =
      { resizeform env f with icon := { (resizeform env f).icon with
          label := if f.icon.label = none then some s.iconlabel else f.icon.label } } := by
  rw [setIcon_eq, resizeform_iconLabel]

/-- The dialog shown depends on `iconlabel` only through the label of the
icon, and only when the icon has no label of its own. -/
theorem shownForm_iconlabel (env : Env) (s : State) (a : String) (fmt : String)
    (ap : List (Option String)) (b0 b1 b2 : Option String) :
    shownForm env { s with iconlabel := a } fmt ap b0 b1 b2 =
      { shownForm env s fmt ap b0 b1 b2 with
        icon := { (shownForm env s fmt ap b0 b1 b2).icon with
          label := if (makeform env s).form.icon.label = none then some a
            else (makeform env s).form.icon.label } } := by
  have hX : (setButtons (setMessage env s (makeform env s).form fmt ap) b0 b1 b2).icon.label
      = (makeform env s).form.icon.label := by
    rw [setButtons_eq, setMessage_eq]; rfl
  have ha := resizeform_setIcon env { s with iconlabel := a }
    (setButtons (setMessage env s (makeform env s).form fmt ap) b0 b1 b2)
  have hs := resizeform_setIcon env s
    (setButtons (setMessage env s (makeform env s).form fmt ap) b0 b1 b2)
  rw [hX] at ha hs
  unfold shownForm
  rw [innards_show_form_iconlabel, innards_show_eq, ha, hs]
  simp only [showForm_eq, Form.show, setTitle_eq, setShortcut_eq, placeForm_form, setFocus_eq]

/-- C5. A call of `fl_input` or `fl_password` that is not blocked, with the
default text `d`: when the dialog is ended by Cancel (button 0) or by closing
the window the call returns null, when it is ended by OK (button 1) and no
event before it edited the field the call returns `d`; the input field is
hidden again in each case. The events `pre` are any that leave the dialog
open. -/
theorem fl_input_cancel_and_ok (env : Env) (s : State) (fmt d : String)
    (ap : List (Option String)) (pre post : List Event) (hs : s.avoidRecursion = 0)
    (hpre : ∀ x ∈ pre, (Dialog.input fmt (some d) ap).endedBy x = false) :
    (∀ e, e = Event.push 0 ∨ e = Event.close →
      (∃ s1, fl_input env s fmt (some d) ap (pre ++ e :: post) = some (none, s1) ∧
        s1.form.input.visible = false) ∧
      (∃ s1, fl_password env s fmt (some d) ap (pre ++ e :: post) = some (none, s1) ∧
        s1.form.input.visible = false)) ∧
    ((∀ x, Event.edit x ∉ pre) →
      (∃ s1, fl_input env s fmt (some d) ap (pre ++ Event.push 1 :: post) = some (some d, s1) ∧
        s1.form.input.visible = false) ∧
      (∃ s1, fl_password env s fmt (some d) ap (pre ++ Event.push 1 :: post) = some (some d, s1) ∧
        s1.form.input.visible = false)) := by
  have hn : ¬ s.avoidRecursion ≠ 0 := by simp [hs]
  have hq := endedBy_eq (Dialog.input fmt (some d) ap) (some s.fl_cancel) (some s.fl_ok) none rfl
  have hpre2 : ∀ x ∈ pre, x.endsFor (some s.fl_cancel) (some s.fl_ok) none = false :=
    fun x hx => by rw [hq]; exact hpre x hx
  constructor
  · intro e he
    have hr : e.result s.ret_val = 0 := by rcases he with rfl | rfl <;> rfl
    have hend : e.endsFor (some s.fl_cancel) (some s.fl_ok) none = true := by
      rcases he with rfl | rfl <;> rfl
    constructor
    · obtain ⟨s1, h1, h2, -⟩ := input_innards_ends env s fmt ap (some d) env.FL_NORMAL_INPUT
        pre e post hpre2 hend
      refine ⟨s1, ?_, h2⟩
      rw [fl_input, if_neg hn, h1, hr]
      rfl
    · obtain ⟨s1, h1, h2, -⟩ := input_innards_ends env s fmt ap (some d) env.FL_SECRET_INPUT
        pre e post hpre2 hend
      refine ⟨s1, ?_, h2⟩
      rw [fl_password, if_neg hn, h1, hr]
      rfl
  · intro hne
    have ht : textAfter true ((some d).getD "") pre = d := textAfter_unedited true d pre hne
    constructor
    · obtain ⟨s1, h1, h2, -⟩ := input_innards_ends env s fmt ap (some d) env.FL_NORMAL_INPUT
        pre (Event.push 1) post hpre2 rfl
      refine ⟨s1, ?_, h2⟩
      rw [fl_input, if_neg hn, h1, ht]
      rfl
    · obtain ⟨s1, h1, h2, -⟩ := input_innards_ends env s fmt ap (some d) env.FL_SECRET_INPUT
        pre (Event.push 1) post hpre2 rfl
      refine ⟨s1, ?_, h2⟩
      rw [fl_password, if_neg hn, h1, ht]
      rfl

theorem fl_input_cancel_and_ok_witness :
    (fl_input testEnv (State.init testEnv) "Enter value:" (some "default") []
        ([Event.other] ++ Event.push 0 :: [])).map Prod.fst = some none ∧
    (fl_input testEnv (State.init testEnv) "Enter value:" (some "default") []
        ([Event.other] ++ Event.push 1 :: [])).map Prod.fst = some (some "default") := by
  have h := fl_input_cancel_and_ok testEnv (State.init testEnv) "Enter value:" "default" []
    [Event.other] [] (by decide) (by decide)
  obtain ⟨⟨s1, h1, -⟩, -⟩ := h.1 (Event.push 0) (Or.inl rfl)
  obtain ⟨⟨s2, h2, -⟩, -⟩ := h.2 (by simp)
  exact ⟨by rw [h1]; rfl, by rw [h2]; rfl⟩
/-- C6. A position set with `fl_message_position(x, y, center)` is used by
the next dialog, whatever the hotspot setting: the window is shown at
`(x, y)`, or at `(x - w/2, y - h/2)` for the displayed size `w x h` when
`center` is not zero. When that dialog returns the pending position is
cleared, so the getter returns 0 and reports -1 and -1, and the dialog after
it is placed by the hotspot when the hotspot is enabled and by the toolkit
otherwise. The dialogs are any of the six functions, each ended by its
events. -/
theorem position_consumed_once (env : Env) (s : State) (x y center a b : Int)
    (d1 d2 : Dialog) (evs1 evs2 : List Event)
    (hs : s.avoidRecursion = 0) (h1 : d1.Ends evs1) (h2 : d2.Ends evs2) :
    ∃ F1 s1 F2 s2,
      d1.run env (fl_message_position s x y center) evs1 = some s1 ∧
      s1.screen = F1 :: s.screen ∧
      F1.message_form.x = (if center ≠ 0 then x - (F1.message_form.w).tdiv 2 else x) ∧
      F1.message_form.y = (if center ≠ 0 then y - (F1.message_form.h).tdiv 2 else y) ∧
      F1.placement = Placement.position F1.message_form.x F1.message_form.y ∧
      fl_message_position_get s1 (some a) (some b) = (0, some (-1), some (-1)) ∧
      d2.run env s1 evs2 = some s2 ∧
      s2.screen = F2 :: F1 :: s.screen ∧
      F2.placement = (if s.enableHotspot ≠ 0 then Placement.hotspot else Placement.free) := by
  obtain ⟨F1, s1, r1, p1⟩ := Dialog.run_ends env (fl_message_position s x y center) d1 evs1 hs h1
  obtain ⟨q1, -, q3, q4, -, q6, q7, -, -, q10, -⟩ := p1
  obtain ⟨F2, s2, r2, p2⟩ := Dialog.run_ends env s1 d2 evs2 q6 h2
  obtain ⟨t1, -, t3, -⟩ := p2
  have hp : (fl_message_position s x y center).form_position = (if center ≠ 0 then 2 else 1) := rfl
  have hp0 : (fl_message_position s x y center).form_position ≠ 0 := by
    rw [hp]; split_ifs <;> decide
  have hx : (fl_message_position s x y center).form_x = x := rfl
  have hy : (fl_message_position s x y center).form_y = y := rfl
  have hc : ((fl_message_position s x y center).form_position = 2) ↔ center ≠ 0 := by
    rw [hp]; split_ifs with h <;> simp [h]
  have hh : (fl_message_position s x y center).enableHotspot = s.enableHotspot := rfl
  have hsc : (fl_message_position s x y center).screen = s.screen := rfl
  obtain ⟨qx, qy⟩ := q4 hp0
  rw [if_pos hp0, hx, hy] at q3
  rw [hx] at qx
  rw [hy] at qy
  simp only [hc] at q3 qx qy
  refine ⟨F1, s1, F2, s2, r1, by rw [q1, hsc], qx, qy, ?_, ?_, r2, by rw [t1, q1, hsc], ?_⟩
  · rw [q3, ← qx, ← qy]
  · simp only [fl_message_position_get, q7, ne_eq, not_true_eq_false, if_false]
  · rw [t3, q7, q10, hh]
    simp

theorem position_consumed_once_witness :
    ∃ F1 s1 F2 s2,
      (Dialog.message "%s" [some "hello"]).run testEnv
        (fl_message_position (State.init testEnv) 500 400 1) [Event.push 1] = some s1 ∧
      s1.screen = F1 :: (State.init testEnv).screen ∧
      F1.message_form.x = (if (1 : Int) ≠ 0 then 500 - (F1.message_form.w).tdiv 2 else 500) ∧
      F1.message_form.y = (if (1 : Int) ≠ 0 then 400 - (F1.message_form.h).tdiv 2 else 400) ∧
      F1.placement = Placement.position F1.message_form.x F1.message_form.y ∧
      fl_message_position_get s1 (some 7) (some 7) = (0, some (-1), some (-1)) ∧
      (Dialog.ask "%s" [some "again"]).run testEnv s1 [Event.close] = some s2 ∧
      s2.screen = F2 :: F1 :: (State.init testEnv).screen ∧
      F2.placement = (if (State.init testEnv).enableHotspot ≠ 0 then Placement.hotspot
        else Placement.free) :=
  position_consumed_once testEnv (State.init testEnv) 500 400 1 7 7
    (Dialog.message "%s" [some "hello"]) (Dialog.ask "%s" [some "again"])
    [Event.push 1] [Event.close] (by decide)
    ⟨[], Event.push 1, [], rfl, by simp, rfl⟩ ⟨[], Event.close, [], rfl, by simp, rfl⟩
/-- Dialogs called one after the other without a new `fl_message_title` all
show the default title. -/
theorem runAll_default_title (env : Env) (D : Option String)
    (calls : List (Dialog × List Event)) (s : State)
    (hs : s.avoidRecursion = 0) (ht : s.title = none) (hd : s.message_title_default = D)
    (hc : ∀ c ∈ calls, c.1.Ends c.2) :
    ∃ Fs sN, runAll env s calls = some sN ∧ sN.screen = Fs ++ s.screen ∧
      Fs.length = calls.length ∧ (∀ F ∈ Fs, F.message_form.label = D) ∧
      sN.message_title_default = D ∧ sN.title = none ∧ sN.avoidRecursion = 0 := by
  induction calls generalizing s with
  | nil => exact ⟨[], s, rfl, rfl, rfl, fun F hF => absurd hF (List.not_mem_nil F), hd, ht, hs⟩
  | cons c rest ih =>
    obtain ⟨F, s1, r1, p1⟩ := Dialog.run_ends env s c.1 c.2 hs (hc c (List.mem_cons_self _ _))
    obtain ⟨q1, q2, -, -, -, q6, -, q8, q9, -⟩ := p1
    obtain ⟨Fs, sN, rN, e1, e2, e3, e4, e5, e6⟩ :=
      ih s1 q6 q8 (by rw [q9, hd]) (fun c2 h2 => hc c2 (List.mem_cons_of_mem _ h2))
    have hF : F.message_form.label = D := by
      rw [q2, ht, hd]
      cases D <;> simp
    refine ⟨Fs ++ [F], sN, ?_, ?_, ?_, ?_, e4, e5, e6⟩
    · simp only [runAll, r1]
      exact rN
    · rw [e1, q1]; simp
    · simp [e2]
    · intro G hG
      rcases List.mem_append.mp hG with h | h
      · exact e3 G h
      · rw [List.mem_singleton.mp h]; exact hF

/-- C7. A title set with `fl_message_title(t)` is shown by the next dialog
and only by it: when that dialog returns the window title is reset, and every
later dialog called without a new `fl_message_title` shows the default title
`D` set with `fl_message_title_default` (no title when `D` is null), which
persists. The dialogs are any of the six functions, each ended by its
events. -/
theorem title_one_shot (env : Env) (s : State) (t : String) (D : Option String)
    (d1 : Dialog) (evs1 : List Event) (later : List (Dialog × List Event))
    (hs : s.avoidRecursion = 0) (h1 : d1.Ends evs1) (hl : ∀ c ∈ later, c.1.Ends c.2) :
    ∃ F1 s1 Fs sN,
      d1.run env (fl_message_title env (fl_message_title_default s D) (some t)) evs1 = some s1 ∧
      s1.screen = F1 :: s.screen ∧
      F1.message_form.label = some t ∧
      s1.form.message_form.label = none ∧
      s1.message_title_default = D ∧
      runAll env s1 later = some sN ∧
      sN.screen = Fs ++ F1 :: s.screen ∧
      Fs.length = later.length ∧
      (∀ F ∈ Fs, F.message_form.label = D) ∧
      sN.message_title_default = D := by
  have hD : (fl_message_title_default s D).message_title_default = D := by
    unfold fl_message_title_default
    cases D <;> split_ifs <;> simp_all
  have hk := makeform_keeps env (fl_message_title_default s D)
  have hm := makeform_made env (fl_message_title_default s D)
  have hsame : (fl_message_title_default s D).avoidRecursion = s.avoidRecursion ∧
      (fl_message_title_default s D).screen = s.screen := by
    unfold fl_message_title_default
    cases D <;> split_ifs <;> exact ⟨rfl, rfl⟩
  have h0 : (fl_message_title env (fl_message_title_default s D) (some t)).avoidRecursion = 0 := by
    simp only [fl_message_title]; rw [hk.2.2.2.2.2.2.2.2.2.2.2.2.2.2, hsame.1, hs]
  have htt : (fl_message_title env (fl_message_title_default s D) (some t)).title = some t := by
    simp only [fl_message_title, State.title, hm, if_true]
  have hdd : (fl_message_title env (fl_message_title_default s D) (some t)).message_title_default
      = D := by
    simp only [fl_message_title]; rw [hk.1, hD]
  have hsc : (fl_message_title env (fl_message_title_default s D) (some t)).screen = s.screen := by
    simp only [fl_message_title]; rw [hk.2.2.2.2.2.2.2.2.2.2.1, hsame.2]
  obtain ⟨F1, s1, r1, p1⟩ := Dialog.run_ends env _ d1 evs1 h0 h1
  obtain ⟨q1, q2, -, -, q5, q6, -, q8, q9, -⟩ := p1
  obtain ⟨Fs, sN, rN, e1, e2, e3, e4, -⟩ :=
    runAll_default_title env D later s1 q6 q8 (by rw [q9, hdd]) hl
  have hlab : s1.form.message_form.label = none := by
    simpa only [State.title, q5, if_true] using q8
  refine ⟨F1, s1, Fs, sN, r1, by rw [q1, hsc], ?_, hlab, by rw [q9, hdd], rN,
    by rw [e1, q1, hsc], e2, e3, e4⟩
  rw [q2, htt]
  simp

theorem title_one_shot_witness :
    ∃ F1 s1 Fs sN,
      (Dialog.alert "%s" [some "disk full"]).run testEnv
        (fl_message_title testEnv (fl_message_title_default (State.init testEnv) (some "App"))
          (some "Warning")) [Event.push 1] = some s1 ∧
      s1.screen = F1 :: (State.init testEnv).screen ∧
      F1.message_form.label = some "Warning" ∧
      s1.form.message_form.label = none ∧
      s1.message_title_default = some "App" ∧
      runAll testEnv s1 [(Dialog.ask "%s" [some "retry"], [Event.push 0]),
        (Dialog.message "%s" [some "done"], [Event.close])] = some sN ∧
      sN.screen = Fs ++ F1 :: (State.init testEnv).screen ∧
      Fs.length = [(Dialog.ask "%s" [some "retry"], [Event.push 0]),
        (Dialog.message "%s" [some "done"], [Event.close])].length ∧
      (∀ F ∈ Fs, F.message_form.label = some "App") ∧
      sN.message_title_default = some "App" :=
  title_one_shot testEnv (State.init testEnv) "Warning" (some "App")
    (Dialog.alert "%s" [some "disk full"]) [Event.push 1]
    [(Dialog.ask "%s" [some "retry"], [Event.push 0]),
      (Dialog.message "%s" [some "done"], [Event.close])]
    (by decide) ⟨[], Event.push 1, [], rfl, by simp, rfl⟩
    (fun c hc => by
      rcases List.mem_cons.mp hc with h | h
      · subst h; exact ⟨[], Event.push 0, [], rfl, by simp, rfl⟩
      · rcases List.mem_singleton.mp h with rfl
        exact ⟨[], Event.close, [], rfl, by simp, rfl⟩)
/-- Buttons and message of the dialog that `innards` shows. -/
theorem shownForm_buttons (env : Env) (s : State) (fmt : String) (ap : List (Option String))
    (b0 b1 b2 : Option String) :
    (shownForm env s fmt ap b0 b1 b2).button0.visible = b0.isSome ∧
    (shownForm env s fmt ap b0 b1 b2).button1.visible = b1.isSome ∧
    (shownForm env s fmt ap b0 b1 b2).button2.visible = b2.isSome ∧
    (∀ l, b0 = some l → (shownForm env s fmt ap b0 b1 b2).button0.label = some l) ∧
    (∀ l, b1 = some l → (shownForm env s fmt ap b0 b1 b2).button1.label = some l) ∧
    (∀ l, b2 = some l → (shownForm env s fmt ap b0 b1 b2).button2.label = some l) ∧
    (shownForm env s fmt ap b0 b1 b2).message.label = messageText env fmt ap ∧
    (shownForm env s fmt ap b0 b1 b2).icon.label =
      (if (makeform env s).form.icon.label = none then some s.iconlabel
       else (makeform env s).form.icon.label) := by
  obtain ⟨-, v0, v1, v2, -⟩ := innards_show_loop env s fmt ap b0 b1 b2
  obtain ⟨-, h2, h3, h4, -, -, h7, h8⟩ := show_after_resize env s
    (placeForm (makeform env { s with pushed := false, avoidRecursion := 1 })
      (setFocus (resizeform env (beforeResize env s fmt ap b0 b1 b2)))).1
    (resizeform env (beforeResize env s fmt ap b0 b1 b2)) b0
  obtain ⟨-, -, rm, ri, -⟩ := resizeform_fixed env (beforeResize env s fmt ap b0 b1 b2)
  obtain ⟨rb0, rb1, rb2⟩ := resizeform_buttons env (beforeResize env s fmt ap b0 b1 b2)
  have hf : shownForm env s fmt ap b0 b1 b2 =
      (showForm (placeForm (makeform env { s with pushed := false, avoidRecursion := 1 })
        (setFocus (resizeform env (beforeResize env s fmt ap b0 b1 b2)))).1
        (setTitle s (setShortcut env (placeForm s
          (setFocus (resizeform env (beforeResize env s fmt ap b0 b1 b2)))).2 b0))).form := by
    unfold shownForm
    rw [innards_show_eq]
    rfl
  refine ⟨v0, v1, v2, ?_, ?_, ?_, ?_, ?_⟩
  · intro l hl
    subst hl
    rw [hf, h2, rb0]
    simp only [beforeResize, setIcon_eq, setButtons_eq, Option.isSome_some, if_true, Widget.resize]
    split_ifs <;> rfl
  · intro l hl
    subst hl
    rw [hf, h3, rb1]
    simp only [beforeResize, setIcon_eq, setButtons_eq, Option.isSome_some, if_true, Widget.resize]
    split_ifs <;> rfl
  · intro l hl
    subst hl
    rw [hf, h4, rb2]
    simp only [beforeResize, setIcon_eq, setButtons_eq, Option.isSome_some, if_true, Widget.resize]
    split_ifs <;> rfl
  · rw [hf, h8, rm, beforeResize, setIcon_eq, setButtons_eq, setMessage_eq]
    rfl
  · rw [hf, h7, ri, beforeResize, setIcon_eq, setButtons_eq, setMessage_eq]
    rfl

/-- C8, as amended. Called in the same state with the same arguments and
events, `fl_message` and `fl_alert` show the same dialog but for the label of
the icon: only button 1 is visible, it carries the Close string, and message
and layout agree. The icon shows "i" for `fl_message` and "!" for `fl_alert`
when the icon widget has no label of its own; a label that a caller has
stored in the widget obtained from `fl_message_icon` is shown by both. -/
theorem message_alert_differ_in_icon (env : Env) (s : State) (fmt : String)
    (ap : List (Option String)) (evs : List Event)
    (hs : s.avoidRecursion = 0) (h : (Dialog.message fmt ap).Ends evs) :
    ∃ Fm sm Fa sa,
      fl_message env s fmt ap evs = some sm ∧ sm.screen = Fm :: s.screen ∧
      fl_alert env s fmt ap evs = some sa ∧ sa.screen = Fa :: s.screen ∧
      Fm.button0.visible = false ∧ Fm.button1.visible = true ∧ Fm.button2.visible = false ∧
      Fm.button1.label = some s.fl_close ∧ Fm.message.label = messageText env fmt ap ∧
      ({ Fm with icon := { Fm.icon with label := none } } : Form)
        = { Fa with icon := { Fa.icon with label := none } } ∧
      ((fl_message_icon env s).1.label = none →
        Fm.icon.label = some "i" ∧ Fa.icon.label = some "!") ∧
      (∀ l, (fl_message_icon env s).1.label = some l →
        Fm.icon.label = some l ∧ Fa.icon.label = some l) := by
  obtain ⟨pre, e, post, rfl, hpre, he⟩ := h
  have hn : ¬ s.avoidRecursion ≠ 0 := by simp [hs]
  have hq := endedBy_eq (Dialog.message fmt ap) none (some s.fl_close) none rfl
  have hpre2 : ∀ x ∈ pre, x.endsFor none (some s.fl_close) none = false :=
    fun x hx => by rw [hq]; exact hpre x hx
  have he2 : e.endsFor none (some s.fl_close) none = true := by rw [hq]; exact he
  obtain ⟨v0, v1, v2, -, l1, -, lm, -⟩ :=
    shownForm_buttons env { s with iconlabel := "i" } fmt ap none (some s.fl_close) none
  have hi := shownForm_iconlabel env s "i" fmt ap none (some s.fl_close) none
  have ha := shownForm_iconlabel env s "!" fmt ap none (some s.fl_close) none
  have hicon : (fl_message_icon env s).1.label = (makeform env s).form.icon.label := rfl
  obtain ⟨sm, rm, hsm⟩ : ∃ sm, fl_message env s fmt ap (pre ++ e :: post) = some sm ∧
      sm.screen
        = shownForm env { s with iconlabel := "i" } fmt ap none (some s.fl_close) none :: s.screen := by
    simp only [fl_message, if_neg hn]
    rw [innards_returns env _ fmt ap none (some s.fl_close) none pre e post hpre2 he2]
    exact ⟨_, rfl, rfl⟩
  obtain ⟨sa, ra, hsa⟩ : ∃ sa, fl_alert env s fmt ap (pre ++ e :: post) = some sa ∧
      sa.screen
        = shownForm env { s with iconlabel := "!" } fmt ap none (some s.fl_close) none :: s.screen := by
    simp only [fl_alert, if_neg hn]
    rw [innards_returns env _ fmt ap none (some s.fl_close) none pre e post hpre2 he2]
    exact ⟨_, rfl, rfl⟩
  refine ⟨_, sm, _, sa, rm, hsm, ra, hsa, v0, v1, v2, l1 _ rfl, lm, ?_, ?_, ?_⟩
  · rw [hi, ha]
  · intro h0
    rw [hicon] at h0
    rw [hi, ha]
    simp only [h0, if_true, and_self]
  · intro l h0
    rw [hicon] at h0
    rw [hi, ha]
    simp only [h0, if_false, and_self]
    simp

theorem message_alert_differ_in_icon_witness :
    ∃ Fm sm Fa sa,
      fl_message testEnv (State.init testEnv) "%s" [some "hello"] [Event.push 1] = some sm ∧
      sm.screen = Fm :: (State.init testEnv).screen ∧
      fl_alert testEnv (State.init testEnv) "%s" [some "hello"] [Event.push 1] = some sa ∧
      sa.screen = Fa :: (State.init testEnv).screen ∧
      Fm.button0.visible = false ∧ Fm.button1.visible = true ∧ Fm.button2.visible = false ∧
      Fm.button1.label = some (State.init testEnv).fl_close ∧
      Fm.message.label = messageText testEnv "%s" [some "hello"] ∧
      ({ Fm with icon := { Fm.icon with label := none } } : Form)
        = { Fa with icon := { Fa.icon with label := none } } ∧
      ((fl_message_icon testEnv (State.init testEnv)).1.label = none →
        Fm.icon.label = some "i" ∧ Fa.icon.label = some "!") ∧
      (∀ l, (fl_message_icon testEnv (State.init testEnv)).1.label = some l →
        Fm.icon.label = some l ∧ Fa.icon.label = some l) :=
  message_alert_differ_in_icon testEnv (State.init testEnv) "%s" [some "hello"] [Event.push 1]
    (by decide) ⟨[], Event.push 1, [], rfl, by simp, rfl⟩

/-- C8, counterexample. After a caller has stored the label "X" in the icon
widget, `fl_message` and `fl_alert` both show "X" as the icon label, not "i"
and "!". -/
theorem message_alert_custom_icon :
    customIcon.avoidRecursion = 0 ∧
    (fl_message testEnv customIcon "%s" [some "hello"] [Event.push 1]).map
      (fun s => s.screen.map (fun F => F.icon.label)) = some [some "X"] ∧
    (fl_alert testEnv customIcon "%s" [some "hello"] [Event.push 1]).map
      (fun s => s.screen.map (fun F => F.icon.label)) = some [some "X"] :=
  ⟨by decide, by decide, by decide⟩
theorem result_of_callback (e : Event) (b0 b1 b2 : Option String) (old new : Int)
    (he : e.endsFor b0 b1 b2 = true) (hh : e ≠ Event.hide) : e.result old = e.result new := by
  cases e with
  | push b => rfl
  | close => rfl
  | hide => exact absurd rfl hh
  | edit x => simp [Event.endsFor] at he
  | other => simp [Event.endsFor] at he

/-- Every list of events either holds no event that ends the dialog or
splits at the first one that does. -/
theorem events_split (b0 b1 b2 : Option String) (evs : List Event) :
    (∀ x ∈ evs, x.endsFor b0 b1 b2 = false) ∨
    ∃ pre e post, evs = pre ++ e :: post ∧ (∀ x ∈ pre, x.endsFor b0 b1 b2 = false) ∧
      e.endsFor b0 b1 b2 = true := by
  induction evs with
  | nil => exact Or.inl (fun x hx => absurd hx (List.not_mem_nil x))
  | cons y evs ih =>
    cases hy : y.endsFor b0 b1 b2 with
    | true => exact Or.inr ⟨[], y, evs, rfl, fun x hx => absurd hx (List.not_mem_nil x), hy⟩
    | false =>
      rcases ih with h | ⟨pre, e, post, h1, h2, h3⟩
      · refine Or.inl (fun x hx => ?_)
        rcases List.mem_cons.mp hx with h0 | h0
        · rw [h0]; exact hy
        · exact h x h0
      · refine Or.inr ⟨y :: pre, e, post, by rw [h1]; rfl, fun x hx => ?_, h3⟩
        rcases List.mem_cons.mp hx with h0 | h0
        · rw [h0]; exact hy
        · exact h2 x h0

/-- C9, as amended. `innards` does not reset `ret_val`: the value it returns
is the one stored by the callback of the event that ends the dialog. For two
states that differ only in `ret_val` the calls return the same value when the
dialog is ended by a button or by closing the window, and both never return
when no event ends the dialog; when the window is hidden without a callback
each call returns the `ret_val` that was left in its state. -/
theorem innards_result_from_event (env : Env) (s : State) (v : Int) (fmt : String)
    (ap : List (Option String)) (b0 b1 b2 : Option String) :
    (∀ pre e post, (∀ x ∈ pre, x.endsFor b0 b1 b2 = false) → e.endsFor b0 b1 b2 = true →
      (innards env s fmt ap b0 b1 b2 (pre ++ e :: post)).map Prod.fst = some (e.result s.ret_val) ∧
      (e ≠ Event.hide →
        (innards env { s with ret_val := v } fmt ap b0 b1 b2 (pre ++ e :: post)).map Prod.fst
          = (innards env s fmt ap b0 b1 b2 (pre ++ e :: post)).map Prod.fst) ∧
      (e = Event.hide →
        (innards env s fmt ap b0 b1 b2 (pre ++ e :: post)).map Prod.fst = some s.ret_val ∧
        (innards env { s with ret_val := v } fmt ap b0 b1 b2 (pre ++ e :: post)).map Prod.fst
          = some v)) ∧
    (∀ evs, (∀ x ∈ evs, x.endsFor b0 b1 b2 = false) →
      innards env s fmt ap b0 b1 b2 evs = none ∧
      innards env { s with ret_val := v } fmt ap b0 b1 b2 evs = none) := by
  constructor
  · intro pre e post hpre he
    have h1 := innards_returns env s fmt ap b0 b1 b2 pre e post hpre he
    have h2 := innards_returns env { s with ret_val := v } fmt ap b0 b1 b2 pre e post hpre he
    rw [h1, h2]
    refine ⟨rfl, ?_, ?_⟩
    · intro hh
      simp only [Option.map_some', Option.some.injEq]
      exact result_of_callback e b0 b1 b2 v s.ret_val he hh
    · intro hh
      subst hh
      exact ⟨rfl, rfl⟩
  · intro evs h
    exact ⟨innards_never env s fmt ap b0 b1 b2 evs h,
      innards_never env { s with ret_val := v } fmt ap b0 b1 b2 evs h⟩

theorem innards_result_from_event_witness :
    (innards testEnv answeredYes "%s" [some "second"] (some "No") (some "Yes") none
        ([Event.other] ++ Event.push 0 :: [])).map Prod.fst = some 0 ∧
    (innards testEnv { answeredYes with ret_val := 7 } "%s" [some "second"] (some "No")
        (some "Yes") none ([Event.other] ++ Event.push 0 :: [])).map Prod.fst
      = (innards testEnv answeredYes "%s" [some "second"] (some "No") (some "Yes") none
        ([Event.other] ++ Event.push 0 :: [])).map Prod.fst := by
  have h := (innards_result_from_event testEnv answeredYes 7 "%s" [some "second"] (some "No")
    (some "Yes") none).1 [Event.other] (Event.push 0) [] (by decide) (by decide)
  exact ⟨h.1, h.2.1 (by decide)⟩

/-- C9, counterexample. After an earlier dialog was answered with button 1,
a dialog whose window is hidden without any callback returns 1, the value
left over, while the same call in a state that differs only in `ret_val = 0`
returns 0. -/
theorem innards_returns_stale_ret_val :
    answeredYes.ret_val = 1 ∧ answeredYes.avoidRecursion = 0 ∧
    (innards testEnv answeredYes "%s" [some "second"] (some "No") (some "Yes") none
      [Event.hide]).map Prod.fst = some 1 ∧
    (innards testEnv { answeredYes with ret_val := 0 } "%s" [some "second"] (some "No")
      (some "Yes") none [Event.hide]).map Prod.fst = some 0 :=
  ⟨by decide, by decide, by decide, by decide⟩

theorem paddedWidth_nonneg (env : Env) (f : Form) (i : Nat)
    (hm : (f.button i).visible = true →
      0 ≤ (env.fl_measure (f.button 0).labelfont (f.button 0).labelsize (f.button i).label).1) :
    0 ≤ paddedWidth env f i := by
  cases hv : (f.button i).visible
  · rw [paddedWidth_hidden env f i hv]
  · have := paddedWidth_pos env f i hv (hm hv)
    omega

/-- The rectangle that `resizeform` gives to a visible button. -/
theorem resizeform_visible_button (env : Env) (f : Form) (i : Nat) (hi : i < 3)
    (hv : (f.button i).visible = true)
    (hm : 0 ≤ (env.fl_measure (f.button 0).labelfont (f.button 0).labelsize (f.button i).label).1) :
    (resizeform env f).button i =
      (f.button i).resize ((layout env f).w - paddedUpTo env f i)
        ((layout env f).h - 10 - (layout env f).max_h) (paddedWidth env f i - 10)
        (layout env f).max_h := by
  obtain ⟨rb0, rb1, rb2⟩ := resizeform_buttons env f
  have hp := paddedWidth_pos env f i hv hm
  have hne : paddedWidth env f i ≠ 0 := by omega
  match i, hi with
  | 0, _ => simp only [Form.button, paddedUpTo]; rw [rb0, if_pos hne]
  | 1, _ =>
    have e : (layout env f).w - paddedWidth env f 0 - paddedWidth env f 1
        = (layout env f).w - (paddedWidth env f 0 + paddedWidth env f 1) := by omega
    simp only [Form.button, paddedUpTo]; rw [rb1, if_pos hne, e]
  | 2, _ =>
    have e : (layout env f).w - paddedWidth env f 0 - paddedWidth env f 1 - paddedWidth env f 2
        = (layout env f).w - (paddedWidth env f 0 + paddedWidth env f 1 + paddedWidth env f 2) := by
      omega
    simp only [Form.button, paddedUpTo]; rw [rb2, if_pos hne, e]

/-- A button that `resizeform` finds hidden is not placed by it: the button
is where the two window resizes have put it. -/
theorem resizeform_hidden_button (env : Env) (f : Form) (i : Nat)
    (hv : (f.button i).visible = false) :
    (resizeform env f).button i = (windowSized env f).button i := by
  obtain ⟨rb0, rb1, rb2⟩ := resizeform_buttons env f
  have hp := paddedWidth_hidden env f i hv
  match i with
  | 0 => simp only [Form.button]; rw [rb0]; simp [hp]
  | 1 => simp only [Form.button]; rw [rb1]; simp [hp]
  | (n + 2) =>
    have hp2 : paddedWidth env f 2 = 0 := by simpa [paddedWidth, Form.button] using hp
    simp only [Form.button]; rw [rb2]; simp [hp2]

/-- C11, as amended. After `resizeform` the visible buttons stand right to
left by slot number: for visible slots `i < j` button `j` ends at or before
the left edge of button `i` and starts left of it, the lowest visible slot
ends 10 pixels left of the right edge of the window, every visible button has
the top `h - 10 - max_h` and the height `max_h`, and a hidden button is not
placed by the button loop: it is where the two window resizes of the toolkit
have put it; the measured widths of the visible button labels are not
negative. -/
theorem resizeform_button_row (env : Env) (f : Form)
    (hm : ∀ i, i < 3 → (f.button i).visible = true →
      0 ≤ (env.fl_measure (f.button 0).labelfont (f.button 0).labelsize (f.button i).label).1) :
    (∀ i j, i < j → j < 3 → (f.button i).visible = true → (f.button j).visible = true →
      ((resizeform env f).button j).x + ((resizeform env f).button j).w
        ≤ ((resizeform env f).button i).x ∧
      ((resizeform env f).button j).x < ((resizeform env f).button i).x) ∧
    (∀ i, i < 3 → (f.button i).visible = true →
      (∀ k, k < i → (f.button k).visible = false) →
      ((resizeform env f).button i).x + ((resizeform env f).button i).w
        = (resizeform env f).message_form.w - 10) ∧
    (∀ i, i < 3 → (f.button i).visible = true →
      ((resizeform env f).button i).y
        = (resizeform env f).message_form.h - 10 - (layout env f).max_h ∧
      ((resizeform env f).button i).h = (layout env f).max_h) ∧
    (∀ i, (f.button i).visible = false →
      (resizeform env f).button i = (windowSized env f).button i) ∧
    (∀ i, ((resizeform env f).button i).visible = (f.button i).visible) := by
  obtain ⟨rw1, -⟩ := resizeform_fixed env f
  have n0 := paddedWidth_nonneg env f 0 (hm 0 (by omega))
  have n1 := paddedWidth_nonneg env f 1 (hm 1 (by omega))
  have n2 := paddedWidth_nonneg env f 2 (hm 2 (by omega))
  refine ⟨?_, ?_, ?_, resizeform_hidden_button env f, resizeform_visible env f⟩
  · intro i j hij hj hvi hvj
    have hi : i < 3 := by omega
    have pj := paddedWidth_pos env f j hvj (hm j hj hvj)
    rw [resizeform_visible_button env f i hi hvi (hm i hi hvi),
      resizeform_visible_button env f j hj hvj (hm j hj hvj)]
    simp only [Widget.resize]
    have hc : (i = 0 ∧ j = 1) ∨ (i = 0 ∧ j = 2) ∨ (i = 1 ∧ j = 2) := by omega
    rcases hc with ⟨rfl, rfl⟩ | ⟨rfl, rfl⟩ | ⟨rfl, rfl⟩ <;> simp only [paddedUpTo] <;> omega
  · intro i hi hvi hlow
    rw [resizeform_visible_button env f i hi hvi (hm i hi hvi), rw1]
    simp only [Widget.resize, Widget.size]
    match i, hi with
    | 0, _ => simp only [paddedUpTo]; omega
    | 1, _ =>
      have h0 := paddedWidth_hidden env f 0 (hlow 0 (by omega))
      simp only [paddedUpTo]; omega
    | 2, _ =>
      have h0 := paddedWidth_hidden env f 0 (hlow 0 (by omega))
      have h1 := paddedWidth_hidden env f 1 (hlow 1 (by omega))
      simp only [paddedUpTo]; omega
  · intro i hi hvi
    rw [resizeform_visible_button env f i hi hvi (hm i hi hvi), rw1]
    simp only [Widget.resize, Widget.size, and_self]

theorem resizeform_button_row_witness :
    (∀ i, i < 3 → (wideButtonsForm.button i).visible = true →
      0 ≤ (testEnv.fl_measure (wideButtonsForm.button 0).labelfont
        (wideButtonsForm.button 0).labelsize (wideButtonsForm.button i).label).1) ∧
    ((resizeform testEnv wideButtonsForm).button 2).x + ((resizeform testEnv wideButtonsForm).button 2).w
      ≤ ((resizeform testEnv wideButtonsForm).button 0).x ∧
    ((resizeform testEnv wideButtonsForm).button 0).x + ((resizeform testEnv wideButtonsForm).button 0).w
      = (resizeform testEnv wideButtonsForm).message_form.w - 10 ∧
    (resizeform testEnv twoButtonForm).button 2 = (windowSized testEnv twoButtonForm).button 2 := by
  have hm : ∀ i, i < 3 → (wideButtonsForm.button i).visible = true →
      0 ≤ (testEnv.fl_measure (wideButtonsForm.button 0).labelfont
        (wideButtonsForm.button 0).labelsize (wideButtonsForm.button i).label).1 :=
    fun i _ _ => testEnv_measure_nonneg _ _ _
  have h := resizeform_button_row testEnv wideButtonsForm hm
  have h2 := resizeform_button_row testEnv twoButtonForm (fun i _ _ => testEnv_measure_nonneg _ _ _)
  exact ⟨hm, (h.1 0 2 (by decide) (by decide) (by decide) (by decide)).1,
    h.2.1 0 (by decide) (by decide) (fun k hk => absurd hk (Nat.not_lt_zero k)),
    h2.2.2.2.1 2 (by decide)⟩

/-- C11, counterexample. With the window resize of FLTK, `resizeform` moves
the hidden button 2 of a dialog with the buttons "No" and "Yes": the window
goes from 410 x 103 to 420 x 86 and the button from `(110, 70)` to
`(120, 53)`. -/
theorem resizeform_moves_hidden_button :
    (twoButtonForm.button 2).visible = false ∧
    twoButtonForm.message_form.rect = (0, 0, 410, 103) ∧
    (resizeform testEnv twoButtonForm).message_form.rect = (0, 0, 420, 86) ∧
    (twoButtonForm.button 2).rect = (110, 70, 90, 23) ∧
    ((resizeform testEnv twoButtonForm).button 2).rect = (120, 53, 90, 23) ∧
    ((resizeform testEnv twoButtonForm).button 2).rect ≠ (twoButtonForm.button 2).rect :=
  ⟨by decide, by decide, by decide, by decide, by decide, by decide⟩

/-- C12, as amended. After `resizeform` every visible button starts at
`y = 20 + text_height`, which is at least 50, and at
`x = w - (button_w[0] + ... + button_w[i])`, which is at least 10. It starts
at or below the bottom edge `y = 60` of the icon when the input field is
shown or the measured message is at least 30 high, and right of the right
edge `x = 60` of the icon when the padded widths up to its slot sum to at
most `w - 60`; it overlaps the icon exactly when it starts above `y = 60` and
left of `x = 60`. The measured widths of the visible button labels are not
negative. -/
theorem resizeform_button_icon (env : Env) (f : Form)
    (hm : ∀ i, i < 3 → (f.button i).visible = true →
      0 ≤ (env.fl_measure (f.button 0).labelfont (f.button 0).labelsize (f.button i).label).1) :
    (resizeform env f).icon.rect = (10, 10, 50, 50) ∧
    ∀ i, i < 3 → (f.button i).visible = true →
      ((resizeform env f).button i).y = 20 + (layout env f).text_height ∧
      ((resizeform env f).button i).x = (resizeform env f).message_form.w - paddedUpTo env f i ∧
      50 ≤ ((resizeform env f).button i).y ∧
      10 ≤ ((resizeform env f).button i).x ∧
      (f.input.visible = true ∨
          30 ≤ (env.fl_measure f.message.labelfont f.message.labelsize f.message.label).2 →
        60 ≤ ((resizeform env f).button i).y) ∧
      (paddedUpTo env f i + 60 ≤ (resizeform env f).message_form.w →
        60 ≤ ((resizeform env f).button i).x) ∧
      (((resizeform env f).button i).overlaps (resizeform env f).icon ↔
        ((resizeform env f).button i).y < 60 ∧ ((resizeform env f).button i).x < 60) := by
  obtain ⟨hmh, hth, hmw, hmsg, hw, hh⟩ := layout_scalars env f
  obtain ⟨rw1, -, -, ri, -⟩ := resizeform_fixed env f
  have hmax := layout_max_h env f
  have n0 := paddedWidth_nonneg env f 0 (hm 0 (by omega))
  have n1 := paddedWidth_nonneg env f 1 (hm 1 (by omega))
  have n2 := paddedWidth_nonneg env f 2 (hm 2 (by omega))
  have hup : ∀ i, paddedUpTo env f i
      ≤ paddedWidth env f 0 + paddedWidth env f 1 + paddedWidth env f 2 := by
    intro i
    match i with
    | 0 => simp only [paddedUpTo]; omega
    | 1 => simp only [paddedUpTo]; omega
    | (n + 2) => simp only [paddedUpTo]; omega
  refine ⟨by rw [ri]; rfl, ?_⟩
  intro i hi hvi
  have hp := paddedWidth_pos env f i hvi (hm i hi hvi)
  have hui := hup i
  rw [resizeform_visible_button env f i hi hvi (hm i hi hvi), rw1, ri]
  simp only [Widget.resize, Widget.size, Widget.overlaps]
  have ht : (layout env f).message_h ≤ (layout env f).text_height := by
    rw [hth]; split_ifs <;> omega
  refine ⟨by omega, trivial, by omega, by omega, ?_, by intro h; omega, ?_⟩
  · rintro (h | h)
    · rw [hth, if_pos h] at *; omega
    · omega
  · constructor
    · intro h; omega
    · intro h; omega

theorem resizeform_button_icon_witness :
    (∀ i, i < 3 → (twoButtonForm.button i).visible = true →
      0 ≤ (testEnv.fl_measure (twoButtonForm.button 0).labelfont
        (twoButtonForm.button 0).labelsize (twoButtonForm.button i).label).1) ∧
    60 ≤ ((resizeform testEnv twoButtonForm).button 1).x ∧
    ¬ ((resizeform testEnv twoButtonForm).button 1).overlaps (resizeform testEnv twoButtonForm).icon := by
  have hm : ∀ i, i < 3 → (twoButtonForm.button i).visible = true →
      0 ≤ (testEnv.fl_measure (twoButtonForm.button 0).labelfont
        (twoButtonForm.button 0).labelsize (twoButtonForm.button i).label).1 :=
    fun i _ _ => testEnv_measure_nonneg _ _ _
  have h := (resizeform_button_icon testEnv twoButtonForm hm).2 1 (by decide) (by decide)
  have hx : 60 ≤ ((resizeform testEnv twoButtonForm).button 1).x := h.2.2.2.2.2.1 (by decide)
  exact ⟨hm, hx, fun ho => by have := (h.2.2.2.2.2.2.mp ho).2; omega⟩

/-- C12, counterexample. With a null message, no input field and three
buttons whose labels are 128 wide, `resizeform` puts the visible button 2 at
`(10, 50)` with the size 148 x 26: it starts above the bottom edge `y = 60` of
the icon and left of its right edge `x = 60`, and overlaps the icon at
`(10, 10)` with the size 50 x 50. -/
theorem resizeform_button_overlaps_icon :
    (wideButtonsForm.button 2).visible = true ∧
    (∀ i, i < 3 → (wideButtonsForm.button i).visible = true →
      0 ≤ (testEnv.fl_measure (wideButtonsForm.button 0).labelfont
        (wideButtonsForm.button 0).labelsize (wideButtonsForm.button i).label).1) ∧
    ((resizeform testEnv wideButtonsForm).button 2).rect = (10, 50, 148, 26) ∧
    (resizeform testEnv wideButtonsForm).icon.rect = (10, 10, 50, 50) ∧
    ¬ (60 ≤ ((resizeform testEnv wideButtonsForm).button 2).y ∨
       60 ≤ ((resizeform testEnv wideButtonsForm).button 2).x) ∧
    ((resizeform testEnv wideButtonsForm).button 2).overlaps (resizeform testEnv wideButtonsForm).icon :=
  ⟨by decide, fun i _ _ => testEnv_measure_nonneg _ _ _, by decide, by decide, by decide,
    by decide⟩

end FlAsk
